import Mathlib

/-!
Mahf CPU driver: the engine of `mahf_core.c`.

A shallow embedding of the kernel-mode engine (`src/mahf_core.c`, request codes from
`src/mahf_core.h`) and theorems about it.

Conventions of the embedding.

* `ULONG` values are natural numbers; every arithmetic result that the C code stores in a
  `ULONG` is reduced with `wrap32`, every `ULONG64` counter with `wrap64`.
* `PERFORMANCE_STATE` is a C enumeration.  The driver is built with the Microsoft tool chain
  (`ntddk.h`, `wdf.h`, `__try`), where an enumeration has type `int`; a state is therefore an
  `Int`, and the four bytes of a request are read as a two's complement number (`toInt32`).
* `UCHAR` is `Fin 256`; the core table `Cores[MAX_CPU_CORES]` is a function on
  `Fin MAX_CPU_CORES`.
* A function returns `Option`: `none` stands for undefined behaviour of the C program
  (a division by zero, an access outside the core table).  `some` carries the `NTSTATUS`
  and the context after the call.
* The handles of the host framework, the spin lock and the start time stamp of
  `DRIVER_CONTEXT` carry no engine state and are left out; `DbgPrint` is a no-op.
-/

namespace Mahf

/-! ## Machine integers -/

/-- Reduction of a value to the 32 bits of a `ULONG`. -/
def wrap32 (n : Nat) : Nat := n % 4294967296

/-- Reduction of a value to the 64 bits of a `ULONG64`. -/
def wrap64 (n : Nat) : Nat := n % 18446744073709551616

/-- The `int` denoted by the 32 bits of `n` (two's complement). -/
def toInt32 (n : Nat) : Int :=
  if wrap32 n < 2147483648 then (wrap32 n : Int) else (wrap32 n : Int) - 4294967296

/-- The `ULONG` obtained by converting an `int`. -/
def ofInt32 (z : Int) : Nat := (z % 4294967296).toNat

/-- The four bytes of a 32-bit word, least significant first. -/
def le32bytes (w : Nat) : List Nat :=
  [w % 256, w / 256 % 256, w / 65536 % 256, w / 16777216 % 256]

/-- The 32-bit word stored in the first four bytes of a buffer, least significant first. -/
def readLe32 (b : List Nat) : Nat :=
  b.getD 0 0 % 256 + b.getD 1 0 % 256 * 256 + b.getD 2 0 % 256 * 65536
    + b.getD 3 0 % 256 * 16777216

/-- The C macro `min`. -/
def cmin (a b : Nat) : Nat := if a < b then a else b

/-- The C macro `max`. -/
def cmax (a b : Nat) : Nat := if a > b then a else b

/-- A counted loop `for (i = 0; i < n; i++) body`, the body possibly undefined. -/
def forLoop {σ : Type} (n : Nat) (body : Nat → σ → Option σ) (s : σ) : Option σ :=
  match n with
  | 0 => some s
  | k + 1 => (forLoop k body s).bind (body k)

/-! ## Status codes and enumerations -/

/-- The `NTSTATUS` values the engine uses. -/
inductive NTSTATUS where
  | STATUS_SUCCESS
  | STATUS_INVALID_PARAMETER
  | STATUS_BUFFER_TOO_SMALL
  | STATUS_NOT_SUPPORTED
  | STATUS_INVALID_DEVICE_REQUEST
  deriving DecidableEq, Repr

open NTSTATUS

/-- The macro `NT_SUCCESS`: of the codes above only `STATUS_SUCCESS` is non-negative. -/
def NT_SUCCESS (status : NTSTATUS) : Bool :=
  match status with
  | STATUS_SUCCESS => true
  | _ => false

abbrev MAX_CPU_CORES : Nat := 256

abbrev STATE_POWER_SAVE : Int := 0
abbrev STATE_BALANCED : Int := 1
abbrev STATE_PERFORMANCE : Int := 2
abbrev STATE_EXTREME : Int := 3

/-- The enumeration `CPU_ARCHITECTURE`. -/
inductive CPU_ARCHITECTURE where
  | ARCH_UNKNOWN
  | ARCH_INTEL
  | ARCH_AMD
  | ARCH_ARM
  deriving DecidableEq, Repr

open CPU_ARCHITECTURE

/-- The numeric value of a `CPU_ARCHITECTURE`. -/
def CPU_ARCHITECTURE.toNat (a : CPU_ARCHITECTURE) : Nat :=
  match a with
  | ARCH_UNKNOWN => 0
  | ARCH_INTEL => 1
  | ARCH_AMD => 2
  | ARCH_ARM => 3

/-! ## Data model -/

/-- The record `CPU_CORE_INFO`. -/
structure CPU_CORE_INFO where
  CoreId : Fin 256
  PackageId : Fin 256
  CurrentFrequency : Nat
  BaseFrequency : Nat
  MaxFrequency : Nat
  Temperature : Nat
  Utilization : Nat
  CurrentState : Int
  deriving DecidableEq, Repr

/-- The record `DRIVER_CONTEXT`, without the host handles, the lock and the start time. -/
structure DRIVER_CONTEXT where
  Architecture : CPU_ARCHITECTURE
  CoreCount : Nat
  ThreadCount : Nat
  BaseFrequency : Nat
  MaxFrequency : Nat
  VendorString : List Nat
  BrandString : List Nat
  GlobalState : Int
  GlobalPowerLimit : Nat
  GlobalThermalLimit : Nat
  TurboBoostEnabled : Bool
  Cores : Fin MAX_CPU_CORES → CPU_CORE_INFO
  TotalOperations : Nat
  FailedOperations : Nat

/-- The conversion `(UCHAR)i`. -/
def toUCHAR (i : Nat) : Fin 256 := ⟨i % 256, Nat.mod_lt i (by decide)⟩

/-- The assignment `Context->Cores[i] = f(Context->Cores[i])` for a `ULONG` index; undefined
outside the table. -/
def DRIVER_CONTEXT.modifyCore (Context : DRIVER_CONTEXT) (i : Nat)
    (f : CPU_CORE_INFO → CPU_CORE_INFO) : Option DRIVER_CONTEXT :=
  if h : i < MAX_CPU_CORES then
    some { Context with Cores := Function.update Context.Cores ⟨i, h⟩ (f (Context.Cores ⟨i, h⟩)) }
  else none

/-- The value `Context->Cores[i]` for a `ULONG` index; undefined outside the table. -/
def DRIVER_CONTEXT.readCore (Context : DRIVER_CONTEXT) (i : Nat) : Option CPU_CORE_INFO :=
  if h : i < MAX_CPU_CORES then some (Context.Cores ⟨i, h⟩) else none

/-! ## Register backend (simulation) -/

/-- The routine `ReadMSR`.  `Value` is what the target of the pointer holds before the call,
`none` for a null pointer; the second component is what it holds afterwards. -/
def ReadMSR (Register : Nat) (Value : Option Nat) : NTSTATUS × Option Nat :=
  match Value with
  | none => (STATUS_INVALID_PARAMETER, none)
  | some _ =>
    if Register = 0x198 then (STATUS_SUCCESS, some 0x0000000000001F40)
    else if Register = 0x199 then (STATUS_SUCCESS, some 0x0000000000001B58)
    else if Register = 0x19C then (STATUS_SUCCESS, some 0x0000000000000028)
    else if Register = 0xCE then (STATUS_SUCCESS, some 0x0000000008000800)
    else (STATUS_NOT_SUPPORTED, some 0)

/-- The routine `WriteMSR`: a placeholder that always succeeds. -/
def WriteMSR (_Register : Nat) (_Value : Nat) : NTSTATUS := STATUS_SUCCESS

/-- The array `ULONG32 Registers[4]`. -/
structure CPUID_REGISTERS where
  r0 : Nat
  r1 : Nat
  r2 : Nat
  r3 : Nat
  deriving DecidableEq, Repr

/-- The routine `GetCPUID`.  `Registers` is what the array holds before the call, `none` for a
null pointer; the second component is what it holds afterwards. -/
def GetCPUID (Function : Nat) (_SubFunction : Nat) (Registers : Option CPUID_REGISTERS) :
    NTSTATUS × Option CPUID_REGISTERS :=
  match Registers with
  | none => (STATUS_INVALID_PARAMETER, none)
  | some regs =>
    if Function = 0 then
      (STATUS_SUCCESS, some ⟨0x0000000B, 0x756E6547, 0x6C65746E, 0x49656E69⟩)
    else if Function = 1 then
      (STATUS_SUCCESS, some ⟨0x000906A0, 0x000C0800, 0x7FFAFBBF, 0xBFEBFBFF⟩)
    else (STATUS_SUCCESS, some regs)

/-! ## Per-core frequency update -/

/-- The record of a core after the tail of `UpdateCoreFrequency` ("Update core information"):
new frequency, simulated temperature and utilization. -/
def UpdateCoreFrequency_record (Context : DRIVER_CONTEXT) (Frequency : Nat)
    (core : CPU_CORE_INFO) : CPU_CORE_INFO :=
  let core := { core with CurrentFrequency := Frequency }
  let core :=
    if Frequency > Context.BaseFrequency then
      { core with Temperature := cmin (wrap32 (core.Temperature + 5)) 100 }
    else if Frequency < Context.BaseFrequency then
      { core with Temperature := cmax (wrap32 (core.Temperature + 4294967296 - 2)) 30 }
    else core
  let utilization := wrap32 (Frequency * 100) / Context.MaxFrequency
  { core with Utilization := cmin utilization 100 }

/-- The tail of `UpdateCoreFrequency`: the record of the core is rewritten; the division by
`MaxFrequency` is undefined when that is zero. -/
def UpdateCoreFrequency_commit (Context : DRIVER_CONTEXT) (CoreId : Fin 256) (Frequency : Nat) :
    Option (NTSTATUS × DRIVER_CONTEXT) :=
  if Context.MaxFrequency = 0 then none
  else
    some (STATUS_SUCCESS, { Context with
      Cores := Function.update Context.Cores CoreId
        (UpdateCoreFrequency_record Context Frequency (Context.Cores CoreId)) })

/-- The routine `UpdateCoreFrequency`. -/
def UpdateCoreFrequency (Context : DRIVER_CONTEXT) (CoreId : Fin 256) (Frequency : Nat) :
    Option (NTSTATUS × DRIVER_CONTEXT) :=
  if CoreId.val ≥ Context.CoreCount then some (STATUS_INVALID_PARAMETER, Context)
  else if Frequency < wrap32 (Context.BaseFrequency * 4) / 10 ∨
      Frequency > Context.MaxFrequency then
    some (STATUS_INVALID_PARAMETER, Context)
  else if Context.Architecture = ARCH_INTEL ∨ Context.Architecture = ARCH_AMD then
    match ReadMSR 0x199 (some 0) with
    | (status, msrValue) =>
      if !NT_SUCCESS status then some (status, Context)
      else
        let newValue := (msrValue.getD 0 &&& 0xFFFFFFFFFFFFFF00) ||| (Frequency / 100 &&& 0xFF)
        let status := WriteMSR 0x199 newValue
        if !NT_SUCCESS status then some (status, Context)
        else UpdateCoreFrequency_commit Context CoreId Frequency
  else UpdateCoreFrequency_commit Context CoreId Frequency

/-! ## Performance state machine -/

/-- The `switch` of `SetPerformanceState` that computes the target frequency; a state that
matches no `case` keeps the initial value, the base frequency. -/
def targetFrequency (Context : DRIVER_CONTEXT) (State : Int) : Nat :=
  if State = STATE_POWER_SAVE then wrap32 (Context.BaseFrequency * 6) / 10
  else if State = STATE_BALANCED then Context.BaseFrequency
  else if State = STATE_PERFORMANCE then wrap32 (Context.BaseFrequency * 12) / 10
  else if State = STATE_EXTREME then Context.MaxFrequency
  else Context.BaseFrequency

/-- One iteration of the loop of `SetPerformanceState`, for the core index `i`. -/
def SetPerformanceState_body (State : Int) (i : Nat) (Context : DRIVER_CONTEXT) :
    Option DRIVER_CONTEXT :=
  let target := targetFrequency Context State
  (UpdateCoreFrequency Context (toUCHAR i) target).bind fun r =>
    -- the status `r.1` is only logged: "Continue with other cores"
    r.2.modifyCore i fun core => { core with CurrentState := State, CurrentFrequency := target }

/-- The routine `SetPerformanceState`. -/
def SetPerformanceState (Context : DRIVER_CONTEXT) (State : Int) :
    Option (NTSTATUS × DRIVER_CONTEXT) :=
  if State > STATE_EXTREME then some (STATUS_INVALID_PARAMETER, Context)
  else
    let Context := { Context with GlobalState := State }
    (forLoop Context.CoreCount (SetPerformanceState_body State) Context).map fun c =>
      (STATUS_SUCCESS, c)

/-! ## Strings and buffers -/

/-- The bytes of a C string: everything before the first NUL. -/
def cstr (s : List Nat) : List Nat := s.takeWhile fun b => b ≠ 0

/-- The test `strstr(hay, needle) != NULL`. -/
def strstr (hay needle : List Nat) : Bool :=
  (cstr hay).tails.any fun t => (cstr needle).isPrefixOf t

/-- The bytes `RtlStringCbCopyA` writes at the start of a destination of `cbDest` bytes: the
characters of the source string, truncated to `cbDest - 1`, and the terminator.  The bytes of
the destination after the terminator are not written. -/
def RtlStringCbCopyA (cbDest : Nat) (src : List Nat) : List Nat :=
  (cstr src).take (cbDest - 1) ++ [0]

/-- The store of `bytes` at `offset` in a buffer. -/
def storeBytes (buf : List Nat) (offset : Nat) (bytes : List Nat) : List Nat :=
  buf.take offset ++ bytes ++ buf.drop (offset + bytes.length)

/-- The characters of "GenuineIntel". -/
def GenuineIntel : List Nat :=
  [0x47, 0x65, 0x6E, 0x75, 0x69, 0x6E, 0x65, 0x49, 0x6E, 0x74, 0x65, 0x6C]

/-- The characters of "AuthenticAMD". -/
def AuthenticAMD : List Nat :=
  [0x41, 0x75, 0x74, 0x68, 0x65, 0x6E, 0x74, 0x69, 0x63, 0x41, 0x4D, 0x44]

/-! ## Topology detection and initialization -/

/-- One iteration of the brand loop of `DetectCPUArchitecture`: the identification words of
function `0x80000002 + i` are stored at `brand[i * 16]`. -/
def DetectCPUArchitecture_brand (s : CPUID_REGISTERS × List Nat) (i : Nat) :
    CPUID_REGISTERS × List Nat :=
  match GetCPUID (0x80000002 + i) 0 (some s.1) with
  | (status, regs) =>
    let regs := regs.getD s.1
    if NT_SUCCESS status then
      (regs, storeBytes s.2 (i * 16)
        (le32bytes regs.r0 ++ le32bytes regs.r1 ++ le32bytes regs.r2 ++ le32bytes regs.r3))
    else (regs, s.2)

/-- The clean-up loop of `DetectCPUArchitecture` over at most `n` characters: the first NUL or
space becomes the terminator. -/
def DetectCPUArchitecture_cleanup : Nat → List Nat → List Nat
  | 0, brand => brand
  | _ + 1, [] => []
  | n + 1, b :: brand =>
    if b = 0 ∨ b = 0x20 then 0 :: brand else b :: DetectCPUArchitecture_cleanup n brand

/-- The routine `DetectCPUArchitecture`.  The local array `regs` is not initialized in the
source; every path writes it (function 0) before it is read. -/
def DetectCPUArchitecture (Context : DRIVER_CONTEXT) : NTSTATUS × DRIVER_CONTEXT :=
  match GetCPUID 0 0 (some ⟨0, 0, 0, 0⟩) with
  | (status, regs) =>
    if !NT_SUCCESS status then (status, Context)
    else
      let regs := regs.getD ⟨0, 0, 0, 0⟩
      let vendor := le32bytes regs.r1 ++ le32bytes regs.r3 ++ le32bytes regs.r2 ++ [0]
      let Context :=
        { Context with VendorString := storeBytes Context.VendorString 0 (RtlStringCbCopyA 13 vendor) }
      -- Determine architecture
      let s : DRIVER_CONTEXT × CPUID_REGISTERS :=
        if strstr vendor GenuineIntel then
          let Context := { Context with Architecture := ARCH_INTEL }
          match GetCPUID 1 0 (some regs) with
          | (status, regs1) =>
            let regs1 := regs1.getD regs
            if NT_SUCCESS status then
              let Context := { Context with CoreCount := (regs1.r1 >>> 16) &&& 0xFF }
              ({ Context with ThreadCount := wrap32 (Context.CoreCount * 2) }, regs1)
            else (Context, regs1)
        else if strstr vendor AuthenticAMD then
          let Context := { Context with Architecture := ARCH_AMD }
          match GetCPUID 0x80000008 0 (some regs) with
          | (status, regs1) =>
            let regs1 := regs1.getD regs
            if NT_SUCCESS status then
              let Context := { Context with CoreCount := (regs1.r2 &&& 0xFF) + 1 }
              ({ Context with ThreadCount := Context.CoreCount }, regs1)
            else (Context, regs1)
        else ({ Context with Architecture := ARCH_UNKNOWN }, regs)
      let Context := s.1
      let regs := s.2
      -- Get brand string
      let Context :=
        if Context.Architecture ≠ ARCH_UNKNOWN then
          let brand := ((List.range 3).foldl DetectCPUArchitecture_brand
            (regs, List.replicate 49 0)).2
          let brand := DetectCPUArchitecture_cleanup 48 brand
          { Context with BrandString := storeBytes Context.BrandString 0 (RtlStringCbCopyA 49 brand) }
        else Context
      -- Get frequency information
      let Context :=
        if Context.Architecture = ARCH_INTEL ∨ Context.Architecture = ARCH_AMD then
          match ReadMSR 0xCE (some 0) with
          | (status, msrValue) =>
            if NT_SUCCESS status then
              let Context :=
                { Context with BaseFrequency := wrap32 (((msrValue.getD 0 >>> 8) &&& 0xFF) * 100) }
              { Context with MaxFrequency := wrap32 (Context.BaseFrequency * 2) }
            else Context
        else Context
      -- Default values if detection failed
      let Context :=
        if Context.CoreCount = 0 then { Context with CoreCount := 4, ThreadCount := 8 }
        else Context
      let Context :=
        if Context.BaseFrequency = 0 then { Context with BaseFrequency := 3000, MaxFrequency := 4500 }
        else Context
      (STATUS_SUCCESS, Context)

/-- The routine `InitializeCoreManagement`. -/
def InitializeCoreManagement (Context : DRIVER_CONTEXT) : Option (NTSTATUS × DRIVER_CONTEXT) :=
  (forLoop Context.CoreCount (fun i c => c.modifyCore i fun core =>
      { core with
        CoreId := toUCHAR i
        BaseFrequency := c.BaseFrequency
        MaxFrequency := c.MaxFrequency
        CurrentFrequency := c.BaseFrequency
        Temperature := 40
        Utilization := 10
        CurrentState := STATE_BALANCED }) Context).map fun c => (STATUS_SUCCESS, c)

/-- The context after `RtlZeroMemory(Context, sizeof(DRIVER_CONTEXT))`. -/
def zeroContext : DRIVER_CONTEXT where
  Architecture := ARCH_UNKNOWN
  CoreCount := 0
  ThreadCount := 0
  BaseFrequency := 0
  MaxFrequency := 0
  VendorString := List.replicate 13 0
  BrandString := List.replicate 49 0
  GlobalState := 0
  GlobalPowerLimit := 0
  GlobalThermalLimit := 0
  TurboBoostEnabled := false
  Cores := fun _ => ⟨0, 0, 0, 0, 0, 0, 0, 0⟩
  TotalOperations := 0
  FailedOperations := 0

/-- The routine `InitializeDriverContext`: the context passed in is zeroed first, so the
result does not depend on it. -/
def InitializeDriverContext (_Context : DRIVER_CONTEXT) : Option (NTSTATUS × DRIVER_CONTEXT) :=
  let Context := zeroContext
  match DetectCPUArchitecture Context with
  | (status, Context) =>
    if !NT_SUCCESS status then some (status, Context)
    else
      (InitializeCoreManagement Context).bind fun r =>
        if !NT_SUCCESS r.1 then some r
        else
          let Context :=
            { r.2 with
              GlobalState := STATE_BALANCED
              GlobalThermalLimit := 85
              GlobalPowerLimit := 65
              TurboBoostEnabled := true }
          -- Initialize cores
          (forLoop MAX_CPU_CORES (fun i c => c.modifyCore i fun core =>
              { core with
                CoreId := toUCHAR i
                CurrentState := STATE_BALANCED
                BaseFrequency := c.BaseFrequency
                MaxFrequency := c.MaxFrequency
                CurrentFrequency := c.BaseFrequency
                Temperature := 40
                Utilization := 10 }) Context).bind fun Context =>
            -- Mark detected cores
            (forLoop Context.CoreCount (fun i c => c.modifyCore i fun core =>
                { core with CoreId := toUCHAR i }) Context).map fun c => (STATUS_SUCCESS, c)

/-! ## Queries -/

/-- The size of `CPU_INFO_RESPONSE`: 13 + 49 characters, two bytes of padding before the six
`ULONG` fields, two `BOOLEAN` fields and two bytes of padding at the end. -/
def sizeof_CPU_INFO_RESPONSE : Nat := 92

/-- The size of `PERFORMANCE_DATA_RESPONSE`: six `ULONG` fields. -/
def sizeof_PERFORMANCE_DATA_RESPONSE : Nat := 24

/-- The size of `PERFORMANCE_STATE`, an `int`. -/
def sizeof_PERFORMANCE_STATE : Nat := 4

/-- The routine `GetCPUInfo`.  `OutputBuffer` holds the bytes of the caller's buffer, `none`
for a null pointer; the second component is the buffer afterwards. -/
def GetCPUInfo (Context : DRIVER_CONTEXT) (OutputBuffer : Option (List Nat))
    (OutputLength : Nat) : NTSTATUS × Option (List Nat) :=
  match OutputBuffer with
  | none => (STATUS_BUFFER_TOO_SMALL, none)
  | some response =>
    if OutputLength < sizeof_CPU_INFO_RESPONSE then (STATUS_BUFFER_TOO_SMALL, some response)
    else
      let response := storeBytes response 0 (RtlStringCbCopyA 13 Context.VendorString)
      let response := storeBytes response 13 (RtlStringCbCopyA 49 Context.BrandString)
      let response := storeBytes response 64 (le32bytes Context.Architecture.toNat)
      let response := storeBytes response 68 (le32bytes Context.CoreCount)
      let response := storeBytes response 72 (le32bytes Context.ThreadCount)
      let response := storeBytes response 76 (le32bytes Context.BaseFrequency)
      let response := storeBytes response 80 (le32bytes Context.MaxFrequency)
      let response := storeBytes response 84 (le32bytes (Context.Cores 0).CurrentFrequency)
      let response := storeBytes response 88
        [if Context.ThreadCount > Context.CoreCount then 1 else 0]
      let response := storeBytes response 89 [if Context.TurboBoostEnabled then 1 else 0]
      (STATUS_SUCCESS, some response)

/-- The record `PERFORMANCE_DATA_RESPONSE`. -/
structure PERFORMANCE_DATA_RESPONSE where
  State : Nat
  Usage : Nat
  Temperature : Nat
  PowerConsumption : Nat
  CurrentFrequency : Nat
  Voltage : Nat
  deriving DecidableEq, Repr

/-- The 24 bytes of a `PERFORMANCE_DATA_RESPONSE` in memory. -/
def PERFORMANCE_DATA_RESPONSE.bytes (r : PERFORMANCE_DATA_RESPONSE) : List Nat :=
  le32bytes r.State ++ le32bytes r.Usage ++ le32bytes r.Temperature
    ++ le32bytes r.PowerConsumption ++ le32bytes r.CurrentFrequency ++ le32bytes r.Voltage

/-- The accumulators `totalUsage`, `totalTemp`, `totalFreq` of `GetPerformanceData`. -/
structure Totals where
  totalUsage : Nat
  totalTemp : Nat
  totalFreq : Nat
  deriving DecidableEq, Repr

/-- One iteration of the summation loop of `GetPerformanceData`. -/
def GetPerformanceData_body (Context : DRIVER_CONTEXT) (i : Nat) (t : Totals) : Option Totals :=
  (Context.readCore i).map fun core =>
    { totalUsage := wrap32 (t.totalUsage + core.Utilization)
      totalTemp := wrap32 (t.totalTemp + core.Temperature)
      totalFreq := wrap32 (t.totalFreq + core.CurrentFrequency) }

/-- The routine `GetPerformanceData`; the divisions by `CoreCount` are undefined when that is
zero. -/
def GetPerformanceData (Context : DRIVER_CONTEXT) (OutputBuffer : Option (List Nat))
    (OutputLength : Nat) : Option (NTSTATUS × Option (List Nat)) :=
  match OutputBuffer with
  | none => some (STATUS_BUFFER_TOO_SMALL, none)
  | some buf =>
    if OutputLength < sizeof_PERFORMANCE_DATA_RESPONSE then
      some (STATUS_BUFFER_TOO_SMALL, some buf)
    else
      (forLoop Context.CoreCount (GetPerformanceData_body Context) ⟨0, 0, 0⟩).bind fun t =>
        if Context.CoreCount = 0 then none
        else
          let response : PERFORMANCE_DATA_RESPONSE :=
            { State := ofInt32 Context.GlobalState
              Usage := t.totalUsage / Context.CoreCount
              Temperature := t.totalTemp / Context.CoreCount
              PowerConsumption := wrap32 (Context.CoreCount * 5)
              CurrentFrequency := t.totalFreq / Context.CoreCount
              Voltage := 1200 }
          some (STATUS_SUCCESS, some (storeBytes buf 0 response.bytes))

/-! ## Request dispatcher -/

/-- The macro `CTL_CODE_MAHF` of `mahf_core.h`. -/
def CTL_CODE_MAHF (Function Method Access : Nat) : Nat :=
  wrap32 ((0x00008880 <<< 16) ||| (Access <<< 14) ||| (Function <<< 2) ||| Method)

/-- The constant `METHOD_BUFFERED` of the host headers. -/
def METHOD_BUFFERED : Nat := 0

/-- The constant `FILE_ANY_ACCESS` of the host headers. -/
def FILE_ANY_ACCESS : Nat := 0

/-- The constant `FILE_WRITE_DATA` of the host headers. -/
def FILE_WRITE_DATA : Nat := 2

def IOCTL_MAHF_GET_CPU_INFO : Nat := CTL_CODE_MAHF 0x800 METHOD_BUFFERED FILE_ANY_ACCESS
def IOCTL_MAHF_GET_PERFORMANCE_DATA : Nat := CTL_CODE_MAHF 0x801 METHOD_BUFFERED FILE_ANY_ACCESS
def IOCTL_MAHF_SET_PERFORMANCE_STATE : Nat := CTL_CODE_MAHF 0x802 METHOD_BUFFERED FILE_WRITE_DATA
def IOCTL_MAHF_RESET_DRIVER : Nat := CTL_CODE_MAHF 0x803 METHOD_BUFFERED FILE_WRITE_DATA

/-- A request of the host framework, as far as the engine looks at it: the bytes of the input
and of the output buffer, `none` when the request has none. -/
structure WDFREQUEST where
  InputBuffer : Option (List Nat)
  OutputBuffer : Option (List Nat)
  deriving DecidableEq, Repr

/-- The host routine `WdfRequestRetrieveInputBuffer(Request, 0, ..)`: it fails with
`STATUS_BUFFER_TOO_SMALL`, leaving pointer and length untouched, when the request has no
input bytes. -/
def WdfRequestRetrieveInputBuffer (Request : WDFREQUEST) : NTSTATUS × Option (List Nat) × Nat :=
  match Request.InputBuffer with
  | some (b :: bs) => (STATUS_SUCCESS, some (b :: bs), (b :: bs).length)
  | _ => (STATUS_BUFFER_TOO_SMALL, none, 0)

/-- The host routine `WdfRequestRetrieveOutputBuffer(Request, 0, ..)`, as for the input. -/
def WdfRequestRetrieveOutputBuffer (Request : WDFREQUEST) : NTSTATUS × Option (List Nat) × Nat :=
  match Request.OutputBuffer with
  | some (b :: bs) => (STATUS_SUCCESS, some (b :: bs), (b :: bs).length)
  | _ => (STATUS_BUFFER_TOO_SMALL, none, 0)

/-- The routine `HandleIOCTL`.  The result carries the status, the context and the request
with its output buffer after the call. -/
def HandleIOCTL (Context : DRIVER_CONTEXT) (Request : WDFREQUEST) (IoControlCode : Nat) :
    Option (NTSTATUS × DRIVER_CONTEXT × WDFREQUEST) :=
  -- Get buffer pointers
  let rin := WdfRequestRetrieveInputBuffer Request
  let inputBuffer :=
    if !NT_SUCCESS rin.1 ∧ rin.1 ≠ STATUS_BUFFER_TOO_SMALL then none else rin.2.1
  let inputLength :=
    if !NT_SUCCESS rin.1 ∧ rin.1 ≠ STATUS_BUFFER_TOO_SMALL then 0 else rin.2.2
  let rout := WdfRequestRetrieveOutputBuffer Request
  let outputBuffer :=
    if !NT_SUCCESS rout.1 ∧ rout.1 ≠ STATUS_BUFFER_TOO_SMALL then none else rout.2.1
  let outputLength :=
    if !NT_SUCCESS rout.1 ∧ rout.1 ≠ STATUS_BUFFER_TOO_SMALL then 0 else rout.2.2
  -- Process IOCTL based on control code
  if IoControlCode = IOCTL_MAHF_GET_CPU_INFO then
    match GetCPUInfo Context outputBuffer outputLength with
    | (status, out) =>
      some (status, Context, { Request with OutputBuffer := out.orElse fun _ => Request.OutputBuffer })
  else if IoControlCode = IOCTL_MAHF_GET_PERFORMANCE_DATA then
    (GetPerformanceData Context outputBuffer outputLength).map fun r =>
      (r.1, Context, { Request with OutputBuffer := r.2.orElse fun _ => Request.OutputBuffer })
  else if IoControlCode = IOCTL_MAHF_SET_PERFORMANCE_STATE then
    if inputLength ≥ sizeof_PERFORMANCE_STATE then
      let state := toInt32 (readLe32 (inputBuffer.getD []))
      (SetPerformanceState Context state).map fun r => (r.1, r.2, Request)
    else some (STATUS_BUFFER_TOO_SMALL, Context, Request)
  else if IoControlCode = IOCTL_MAHF_RESET_DRIVER then
    (InitializeDriverContext Context).map fun r => (r.1, r.2, Request)
  else some (STATUS_INVALID_DEVICE_REQUEST, Context, Request)

/-- The routine `OnDeviceControl`: the dispatcher with its accounting.  The result carries the
status the request is completed with. -/
def OnDeviceControl (context : DRIVER_CONTEXT) (Request : WDFREQUEST) (IoControlCode : Nat) :
    Option (NTSTATUS × DRIVER_CONTEXT × WDFREQUEST) :=
  -- Update operation count
  let context := { context with TotalOperations := wrap64 (context.TotalOperations + 1) }
  (HandleIOCTL context Request IoControlCode).map fun r =>
    if !NT_SUCCESS r.1 then
      (r.1, { r.2.1 with FailedOperations := wrap64 (r.2.1.FailedOperations + 1) }, r.2.2)
    else r

/-! ## Auxiliary definitions for the statements -/

/-- The context the engine starts with: the result of `InitializeDriverContext`. -/
def initialContext : DRIVER_CONTEXT :=
  ((InitializeDriverContext zeroContext).map Prod.snd).getD zeroContext

/-- The identity the simulated backend is detected as. -/
def detectedContext : DRIVER_CONTEXT :=
  { zeroContext with
    Architecture := ARCH_INTEL
    CoreCount := 12
    ThreadCount := 24
    BaseFrequency := 800
    MaxFrequency := 1600
    VendorString := GenuineIntel ++ [0]
    BrandString := [0xA0, 0x06, 0x09] ++ List.replicate 46 0 }

/-- The closed form of the context after initialization on the simulated backend. -/
def freshContext : DRIVER_CONTEXT :=
  { detectedContext with
    GlobalState := STATE_BALANCED
    GlobalThermalLimit := 85
    GlobalPowerLimit := 65
    TurboBoostEnabled := true
    Cores := fun j => ⟨j, 0, 800, 800, 1600, 40, 10, STATE_BALANCED⟩ }

/-- The record of a core after one iteration of the loop of `SetPerformanceState`: the
per-core update when the target passes its range check, then state and frequency. -/
def SetPerformanceState_core (Context : DRIVER_CONTEXT) (State : Int) (core : CPU_CORE_INFO) :
    CPU_CORE_INFO :=
  let target := targetFrequency Context State
  let core :=
    if target < wrap32 (Context.BaseFrequency * 4) / 10 ∨ target > Context.MaxFrequency then core
    else UpdateCoreFrequency_record Context target core
  { core with CurrentState := State, CurrentFrequency := target }

/-- The closed form of the context after `SetPerformanceState` for a state that passes
validation: the global state is set and the first `CoreCount` records are rewritten. -/
def SetPerformanceState_result (Context : DRIVER_CONTEXT) (State : Int) : DRIVER_CONTEXT :=
  { Context with
    GlobalState := State
    Cores := fun j =>
      if j.val < Context.CoreCount then SetPerformanceState_core Context State (Context.Cores j)
      else Context.Cores j }

/-- Two calls of `SetPerformanceState` in a row with the same state. -/
def setStateTwice (Context : DRIVER_CONTEXT) (State : Int) : Option (NTSTATUS × DRIVER_CONTEXT) :=
  (SetPerformanceState Context State).bind fun r => SetPerformanceState r.2 State

/-- The sum of a field over exactly the first `n` entries of the core table. -/
def sumFirst (Context : DRIVER_CONTEXT) (n : Nat) (f : CPU_CORE_INFO → Nat) : Nat :=
  Finset.sum (Finset.univ.filter fun j : Fin MAX_CPU_CORES => j.val < n)
    fun j => f (Context.Cores j)

/-- A context with three cores whose records differ: utilization 10, 11, 14, temperature
40, 41, 42 and current frequency 800, 900, 1200. -/
def nonUniformContext : DRIVER_CONTEXT :=
  { freshContext with
    CoreCount := 3
    ThreadCount := 6
    Cores := fun j =>
      ⟨j, 0, 800 + 100 * (j.val * j.val), 800, 1600, 40 + j.val, 10 + j.val * j.val,
        STATE_BALANCED⟩ }

/-- The freshly initialized engine with the identity of the specification's examples: base
frequency 3000 and maximum frequency 4500. -/
def base3000Context : DRIVER_CONTEXT :=
  { freshContext with BaseFrequency := 3000, MaxFrequency := 4500 }

/-- The invariant of the engine on the simulated backend: the detected identity (12 cores,
base 800, maximum 1600) and, for each of the 12 records, the same base and maximum frequency
and current frequency, utilization and temperature within their bounds. -/
def SimInvariant (c : DRIVER_CONTEXT) : Prop :=
  c.CoreCount = 12 ∧ c.BaseFrequency = 800 ∧ c.MaxFrequency = 1600 ∧
  ∀ j : Fin MAX_CPU_CORES, j.val < 12 →
    (c.Cores j).BaseFrequency = 800 ∧ (c.Cores j).MaxFrequency = 1600 ∧
    320 ≤ (c.Cores j).CurrentFrequency ∧ (c.Cores j).CurrentFrequency ≤ 1600 ∧
    (c.Cores j).Utilization ≤ 100 ∧
    30 ≤ (c.Cores j).Temperature ∧ (c.Cores j).Temperature ≤ 100

/-- The engine states reachable from initialization by requests. -/
inductive Reachable : DRIVER_CONTEXT → Prop where
  | init : Reachable initialContext
  | step (c c1 : DRIVER_CONTEXT) (Request Request1 : WDFREQUEST) (IoControlCode : Nat)
      (status : NTSTATUS) : Reachable c →
      OnDeviceControl c Request IoControlCode = some (status, c1, Request1) → Reachable c1

/-! ## Topology detection with the register backend as a parameter

The source calls `GetCPUID` and `ReadMSR` directly.  For statements about every outcome of
identification and of register reads, the routines are restated here step by step with the
two backend routines as parameters; `DetectCPUArchitecture_eq_With` and
`InitializeDriverContext_eq_With` show that the routines above are the instances for the
simulated backend. -/

/-- The type of an identification routine such as `GetCPUID`. -/
abbrev CpuidRoutine : Type :=
  Nat → Nat → Option CPUID_REGISTERS → NTSTATUS × Option CPUID_REGISTERS

/-- The type of a register read routine such as `ReadMSR`. -/
abbrev ReadMsrRoutine : Type := Nat → Option Nat → NTSTATUS × Option Nat

/-- The vendor string `DetectCPUArchitecture` builds from the words of function 0, in the
order word 1, word 3, word 2, with its terminator. -/
def DetectCPUArchitecture_vendor (regs : CPUID_REGISTERS) : List Nat :=
  le32bytes regs.r1 ++ le32bytes regs.r3 ++ le32bytes regs.r2 ++ [0]

/-- The step "Determine architecture" of `DetectCPUArchitecture`; the second component is the
array `regs` afterwards. -/
def DetectCPUArchitecture_classify (cpuid : CpuidRoutine) (regs : CPUID_REGISTERS)
    (Context : DRIVER_CONTEXT) : DRIVER_CONTEXT × CPUID_REGISTERS :=
  let vendor := DetectCPUArchitecture_vendor regs
  if strstr vendor GenuineIntel then
    let Context := { Context with Architecture := ARCH_INTEL }
    let r := cpuid 1 0 (some regs)
    let regs1 := r.2.getD regs
    if NT_SUCCESS r.1 then
      let Context := { Context with CoreCount := (regs1.r1 >>> 16) &&& 0xFF }
      ({ Context with ThreadCount := wrap32 (Context.CoreCount * 2) }, regs1)
    else (Context, regs1)
  else if strstr vendor AuthenticAMD then
    let Context := { Context with Architecture := ARCH_AMD }
    let r := cpuid 0x80000008 0 (some regs)
    let regs1 := r.2.getD regs
    if NT_SUCCESS r.1 then
      let Context := { Context with CoreCount := (regs1.r2 &&& 0xFF) + 1 }
      ({ Context with ThreadCount := Context.CoreCount }, regs1)
    else (Context, regs1)
  else ({ Context with Architecture := ARCH_UNKNOWN }, regs)

/-- One iteration of the brand loop, as `DetectCPUArchitecture_brand`. -/
def DetectCPUArchitecture_brandWith (cpuid : CpuidRoutine) (s : CPUID_REGISTERS × List Nat)
    (i : Nat) : CPUID_REGISTERS × List Nat :=
  let r := cpuid (0x80000002 + i) 0 (some s.1)
  let regs := r.2.getD s.1
  if NT_SUCCESS r.1 then
    (regs, storeBytes s.2 (i * 16)
      (le32bytes regs.r0 ++ le32bytes regs.r1 ++ le32bytes regs.r2 ++ le32bytes regs.r3))
  else (regs, s.2)

/-- The step "Get brand string" of `DetectCPUArchitecture`. -/
def DetectCPUArchitecture_brandString (cpuid : CpuidRoutine) (regs : CPUID_REGISTERS)
    (Context : DRIVER_CONTEXT) : DRIVER_CONTEXT :=
  if Context.Architecture ≠ ARCH_UNKNOWN then
    let brand := ((List.range 3).foldl (DetectCPUArchitecture_brandWith cpuid)
      (regs, List.replicate 49 0)).2
    let brand := DetectCPUArchitecture_cleanup 48 brand
    { Context with BrandString := storeBytes Context.BrandString 0 (RtlStringCbCopyA 49 brand) }
  else Context

/-- The step "Get frequency information" of `DetectCPUArchitecture`. -/
def DetectCPUArchitecture_frequency (rdmsr : ReadMsrRoutine) (Context : DRIVER_CONTEXT) :
    DRIVER_CONTEXT :=
  if Context.Architecture = ARCH_INTEL ∨ Context.Architecture = ARCH_AMD then
    let r := rdmsr 0xCE (some 0)
    if NT_SUCCESS r.1 then
      let Context :=
        { Context with BaseFrequency := wrap32 (((r.2.getD 0 >>> 8) &&& 0xFF) * 100) }
      { Context with MaxFrequency := wrap32 (Context.BaseFrequency * 2) }
    else Context
  else Context

/-- The step "Default values if detection failed" of `DetectCPUArchitecture`. -/
def DetectCPUArchitecture_defaults (Context : DRIVER_CONTEXT) : DRIVER_CONTEXT :=
  let Context :=
    if Context.CoreCount = 0 then { Context with CoreCount := 4, ThreadCount := 8 }
    else Context
  if Context.BaseFrequency = 0 then { Context with BaseFrequency := 3000, MaxFrequency := 4500 }
  else Context

/-- The context `DetectCPUArchitecture` has detected when it reaches its step "Default values":
vendor string, architecture and core count, brand string, frequencies.  `regs` holds the words
of function 0. -/
def DetectCPUArchitecture_detected (cpuid : CpuidRoutine) (rdmsr : ReadMsrRoutine)
    (regs : CPUID_REGISTERS) (Context : DRIVER_CONTEXT) : DRIVER_CONTEXT :=
  let Context :=
    { Context with
      VendorString :=
        storeBytes Context.VendorString 0 (RtlStringCbCopyA 13 (DetectCPUArchitecture_vendor regs)) }
  let s := DetectCPUArchitecture_classify cpuid regs Context
  DetectCPUArchitecture_frequency rdmsr (DetectCPUArchitecture_brandString cpuid s.2 s.1)

/-- The routine `DetectCPUArchitecture` with the register backend as a parameter. -/
def DetectCPUArchitectureWith (cpuid : CpuidRoutine) (rdmsr : ReadMsrRoutine)
    (Context : DRIVER_CONTEXT) : NTSTATUS × DRIVER_CONTEXT :=
  let r := cpuid 0 0 (some ⟨0, 0, 0, 0⟩)
  if !NT_SUCCESS r.1 then (r.1, Context)
  else
    (STATUS_SUCCESS, DetectCPUArchitecture_defaults
      (DetectCPUArchitecture_detected cpuid rdmsr (r.2.getD ⟨0, 0, 0, 0⟩) Context))

/-- The routine `InitializeDriverContext` with the register backend as a parameter. -/
def InitializeDriverContextWith (cpuid : CpuidRoutine) (rdmsr : ReadMsrRoutine)
    (_Context : DRIVER_CONTEXT) : Option (NTSTATUS × DRIVER_CONTEXT) :=
  let d := DetectCPUArchitectureWith cpuid rdmsr zeroContext
  if !NT_SUCCESS d.1 then some d
  else
    (InitializeCoreManagement d.2).bind fun r =>
      if !NT_SUCCESS r.1 then some r
      else
        let Context :=
          { r.2 with
            GlobalState := STATE_BALANCED
            GlobalThermalLimit := 85
            GlobalPowerLimit := 65
            TurboBoostEnabled := true }
        (forLoop MAX_CPU_CORES (fun i c => c.modifyCore i fun core =>
            { core with
              CoreId := toUCHAR i
              CurrentState := STATE_BALANCED
              BaseFrequency := c.BaseFrequency
              MaxFrequency := c.MaxFrequency
              CurrentFrequency := c.BaseFrequency
              Temperature := 40
              Utilization := 10 }) Context).bind fun Context =>
          (forLoop Context.CoreCount (fun i c => c.modifyCore i fun core =>
              { core with CoreId := toUCHAR i }) Context).map fun c => (STATUS_SUCCESS, c)

/-- An identification routine of a processor that reports nothing: every function returns
zero words. -/
def silentCpuid : CpuidRoutine := fun _ _ Registers =>
  match Registers with
  | none => (STATUS_INVALID_PARAMETER, none)
  | some _ => (STATUS_SUCCESS, some ⟨0, 0, 0, 0⟩)

/-- A register read routine that supports no register. -/
def failingReadMsr : ReadMsrRoutine := fun _ Value =>
  match Value with
  | none => (STATUS_INVALID_PARAMETER, none)
  | some _ => (STATUS_NOT_SUPPORTED, some 0)

/-! ## Further auxiliary definitions -/

/-- The ProcessorIdentity part of a context: vendor string, brand string, architecture, core
count, thread count, base and maximum frequency. -/
def DRIVER_CONTEXT.identity (c : DRIVER_CONTEXT) :
    List Nat × List Nat × CPU_ARCHITECTURE × Nat × Nat × Nat × Nat :=
  (c.VendorString, c.BrandString, c.Architecture, c.CoreCount, c.ThreadCount, c.BaseFrequency,
    c.MaxFrequency)

/-- A context whose frequency range is too narrow for `Performance`: base 4000, maximum 4500,
so that the target 4800 is above the maximum; twelve cores at 4000 MHz, 40 degrees,
utilization 10, Balanced. -/
def narrowRangeContext : DRIVER_CONTEXT :=
  { freshContext with
    BaseFrequency := 4000
    MaxFrequency := 4500
    Cores := fun j => ⟨j, 0, 4000, 4000, 4500, 40, 10, STATE_BALANCED⟩ }

/-- The frame of an operation that is not a reset: the ProcessorIdentity part is unchanged and
so is every table entry at an index not below `CoreCount`. -/
def Frame (c c1 : DRIVER_CONTEXT) : Prop :=
  c1.identity = c.identity ∧
  ∀ j : Fin MAX_CPU_CORES, c.CoreCount ≤ j.val → c1.Cores j = c.Cores j

/-! ## Loops and closed forms -/

theorem forLoop_succ {σ : Type} (k : Nat) (body : Nat → σ → Option σ) (s : σ) :
    forLoop (k + 1) body s = (forLoop k body s).bind (body k) := rfl

/-- A loop whose body rewrites the record of core `i` with `G i` rewrites the first `n`
records and nothing else. -/
theorem forLoop_modifyCore (ctx : DRIVER_CONTEXT) (G : Nat → CPU_CORE_INFO → CPU_CORE_INFO)
    (body : Nat → DRIVER_CONTEXT → Option DRIVER_CONTEXT) (n : Nat) (hn : n ≤ MAX_CPU_CORES)
    (hbody : ∀ i, i < n → ∀ cores, body i { ctx with Cores := cores }
      = ({ ctx with Cores := cores } : DRIVER_CONTEXT).modifyCore i (G i)) :
    forLoop n body ctx = some { ctx with
      Cores := fun j => if j.val < n then G j.val (ctx.Cores j) else ctx.Cores j } := by
  induction n with
  | zero => simp [forLoop]
  | succ k ih =>
    have hk : k < MAX_CPU_CORES := hn
    rw [forLoop_succ, ih (Nat.le_of_lt hk) (fun i hi => hbody i (Nat.lt_succ_of_lt hi)),
      Option.some_bind, hbody k (Nat.lt_succ_self k)]
    simp only [DRIVER_CONTEXT.modifyCore, dif_pos hk]
    congr 2
    funext j
    by_cases hj : j = ⟨k, hk⟩
    · subst hj
      simp
    · have hne : j.val ≠ k := fun h => hj (Fin.ext h)
      rw [Function.update_noteq hj]
      by_cases hlt : j.val < k
      · simp [hlt, Nat.lt_succ_of_lt hlt]
      · have : ¬ j.val < k + 1 := by omega
        simp [hlt, this]

theorem toUCHAR_of_lt (i : Nat) (h : i < 256) : toUCHAR i = ⟨i, h⟩ := by
  apply Fin.ext
  simp [toUCHAR, Nat.mod_eq_of_lt h]

theorem DetectCPUArchitecture_zeroContext :
    DetectCPUArchitecture zeroContext = (STATUS_SUCCESS, detectedContext) := rfl

/-- On the simulated backend the register steps of `UpdateCoreFrequency` succeed, so the
routine is its two range checks followed by its tail. -/
theorem UpdateCoreFrequency_eq (c : DRIVER_CONTEXT) (CoreId : Fin 256) (f : Nat) :
    UpdateCoreFrequency c CoreId f =
      if CoreId.val ≥ c.CoreCount then some (STATUS_INVALID_PARAMETER, c)
      else if f < wrap32 (c.BaseFrequency * 4) / 10 ∨ f > c.MaxFrequency then
        some (STATUS_INVALID_PARAMETER, c)
      else UpdateCoreFrequency_commit c CoreId f := by
  unfold UpdateCoreFrequency
  split
  · rfl
  · split
    · rfl
    · split <;> simp [ReadMSR, WriteMSR, NT_SUCCESS]

theorem SetPerformanceState_body_eq (State : Int) (i : Nat) (c : DRIVER_CONTEXT)
    (hi : i < c.CoreCount) (h256 : i < MAX_CPU_CORES) (hmax : c.MaxFrequency ≠ 0) :
    SetPerformanceState_body State i c = c.modifyCore i (SetPerformanceState_core c State) := by
  have hge : ¬ (toUCHAR i).val ≥ c.CoreCount := by
    rw [toUCHAR_of_lt i h256]
    exact Nat.not_le_of_lt hi
  unfold SetPerformanceState_body
  simp only [UpdateCoreFrequency_eq, if_neg hge, DRIVER_CONTEXT.modifyCore, dif_pos h256,
    SetPerformanceState_core, UpdateCoreFrequency_commit, if_neg hmax]
  by_cases hr : targetFrequency c State < wrap32 (c.BaseFrequency * 4) / 10 ∨
      targetFrequency c State > c.MaxFrequency
  · simp only [if_pos hr, Option.some_bind]
  · simp only [if_neg hr, Option.some_bind, toUCHAR_of_lt i h256, Function.update_same,
      Function.update_idem]

/-- The closed form of `SetPerformanceState` for a state that passes validation. -/
theorem SetPerformanceState_eq (ctx : DRIVER_CONTEXT) (State : Int) (hS : State ≤ STATE_EXTREME)
    (hn : ctx.CoreCount ≤ MAX_CPU_CORES) (hmax : ctx.MaxFrequency ≠ 0) :
    SetPerformanceState ctx State
      = some (STATUS_SUCCESS, SetPerformanceState_result ctx State) := by
  unfold SetPerformanceState
  rw [if_neg (not_lt.mpr hS)]
  simp only []
  rw [forLoop_modifyCore { ctx with GlobalState := State }
    (fun _ => SetPerformanceState_core ctx State) _ ctx.CoreCount hn]
  · rfl
  · intro i hi cores
    exact SetPerformanceState_body_eq State i _ hi (Nat.lt_of_lt_of_le hi hn) hmax

theorem toUCHAR_val (j : Fin 256) : toUCHAR j.val = j := by
  apply Fin.ext
  simp [toUCHAR, Nat.mod_eq_of_lt j.isLt]

theorem InitializeCoreManagement_detected :
    InitializeCoreManagement detectedContext = some (STATUS_SUCCESS, { detectedContext with
      Cores := fun j =>
        if j.val < 12 then ⟨j, 0, 800, 800, 1600, 40, 10, STATE_BALANCED⟩
        else detectedContext.Cores j }) := by
  unfold InitializeCoreManagement
  rw [forLoop_modifyCore detectedContext (fun i core =>
      { core with
        CoreId := toUCHAR i
        BaseFrequency := 800
        MaxFrequency := 1600
        CurrentFrequency := 800
        Temperature := 40
        Utilization := 10
        CurrentState := STATE_BALANCED }) _ detectedContext.CoreCount (by decide)
      (fun i _ cores => rfl)]
  simp only [Option.map_some']
  congr 3
  funext j
  have : detectedContext.CoreCount = 12 := rfl
  rw [this]
  split
  · simp [toUCHAR_val, detectedContext, zeroContext]
  · rfl

/-- Initialization on the simulated backend always yields the same context. -/
theorem InitializeDriverContext_eq (c : DRIVER_CONTEXT) :
    InitializeDriverContext c = some (STATUS_SUCCESS, freshContext) := by
  unfold InitializeDriverContext
  simp only [DetectCPUArchitecture_zeroContext, InitializeCoreManagement_detected, NT_SUCCESS,
    Option.some_bind, Bool.not_true, Bool.false_eq_true, if_false]
  rw [forLoop_modifyCore _ (fun i core =>
      { core with
        CoreId := toUCHAR i
        CurrentState := STATE_BALANCED
        BaseFrequency := 800
        MaxFrequency := 1600
        CurrentFrequency := 800
        Temperature := 40
        Utilization := 10 }) _ MAX_CPU_CORES (Nat.le_refl _) (fun i _ cores => rfl)]
  simp only [Option.some_bind]
  rw [forLoop_modifyCore _ (fun i core => { core with CoreId := toUCHAR i }) _ _ (by decide)
    (fun i _ cores => rfl)]
  simp only [Option.map_some']
  unfold freshContext
  congr 3
  funext j
  have hp : (if j.val < 12 then
      (⟨j, 0, 800, 800, 1600, 40, 10, STATE_BALANCED⟩ : CPU_CORE_INFO)
      else detectedContext.Cores j).PackageId = 0 := by
    split <;> rfl
  simp [toUCHAR_val, j.isLt, hp]

theorem initialContext_eq : initialContext = freshContext := by
  simp [initialContext, InitializeDriverContext_eq]

/-! ## Performance state machine: theorems -/

theorem SetPerformanceState_core_twice (c : DRIVER_CONTEXT) (S : Int) (r : CPU_CORE_INFO) :
    { SetPerformanceState_core c S (SetPerformanceState_core c S r) with
        Temperature := (SetPerformanceState_core c S r).Temperature }
      = SetPerformanceState_core c S r := by
  unfold SetPerformanceState_core
  by_cases hr : targetFrequency c S < wrap32 (c.BaseFrequency * 4) / 10 ∨
      targetFrequency c S > c.MaxFrequency
  · simp only [if_pos hr]
  · simp only [if_neg hr, UpdateCoreFrequency_record]
    split_ifs <;> rfl

theorem SetPerformanceState_core_balanced (c : DRIVER_CONTEXT) (r : CPU_CORE_INFO) :
    SetPerformanceState_core c STATE_BALANCED (SetPerformanceState_core c STATE_BALANCED r)
      = SetPerformanceState_core c STATE_BALANCED r := by
  have ht : targetFrequency c STATE_BALANCED = c.BaseFrequency := by
    simp [targetFrequency]
  unfold SetPerformanceState_core
  rw [ht]
  by_cases hr : c.BaseFrequency < wrap32 (c.BaseFrequency * 4) / 10 ∨
      c.BaseFrequency > c.MaxFrequency
  · simp only [if_pos hr]
  · simp only [if_neg hr, UpdateCoreFrequency_record, gt_iff_lt, lt_self_iff_false, if_false]

/-- C1 (counterexample): on the freshly initialized engine, `set_state(Performance)` once
leaves core 0 at 45 degrees, twice in a row at 50 degrees: the tables differ. -/
theorem set_state_twice_changes_temperature :
    (SetPerformanceState initialContext STATE_PERFORMANCE).map
        (fun r => (r.2.Cores 0).Temperature) = some 45 ∧
    (setStateTwice initialContext STATE_PERFORMANCE).map
        (fun r => (r.2.Cores 0).Temperature) = some 50 := by
  have h1 := SetPerformanceState_eq freshContext STATE_PERFORMANCE (by decide) (by decide)
    (by decide)
  constructor
  · rw [initialContext_eq, h1]
    rfl
  · rw [initialContext_eq, setStateTwice, h1, Option.some_bind,
      SetPerformanceState_eq _ STATE_PERFORMANCE (by decide) (by decide) (by decide)]
    rfl

/-- C1 (amended): for a valid state `S`, on a context whose core count fits the table and whose
maximum frequency is not zero, `set_state(S)` succeeds once and twice in a row, and the two
results have the same global state and, core by core, the same record up to the temperature;
for `S = Balanced` the two resulting contexts are equal. -/
theorem set_state_idempotent_up_to_temperature (ctx : DRIVER_CONTEXT) (S : Int)
    (hS : STATE_POWER_SAVE ≤ S ∧ S ≤ STATE_EXTREME) (hn : ctx.CoreCount ≤ MAX_CPU_CORES)
    (hmax : ctx.MaxFrequency ≠ 0) :
    ∃ c1 c2, SetPerformanceState ctx S = some (STATUS_SUCCESS, c1) ∧
      setStateTwice ctx S = some (STATUS_SUCCESS, c2) ∧
      c2.GlobalState = c1.GlobalState ∧
      (∀ j, { c2.Cores j with Temperature := (c1.Cores j).Temperature } = c1.Cores j) ∧
      (S = STATE_BALANCED → c2 = c1) := by
  have h1 := SetPerformanceState_eq ctx S hS.2 hn hmax
  have h2 : setStateTwice ctx S = some (STATUS_SUCCESS,
      SetPerformanceState_result (SetPerformanceState_result ctx S) S) := by
    rw [setStateTwice, h1, Option.some_bind]
    exact SetPerformanceState_eq _ S hS.2 hn hmax
  refine ⟨SetPerformanceState_result ctx S,
    SetPerformanceState_result (SetPerformanceState_result ctx S) S, h1, h2, rfl, ?_, ?_⟩
  · intro j
    simp only [SetPerformanceState_result]
    by_cases hj : j.val < ctx.CoreCount
    · simp only [if_pos hj]
      exact SetPerformanceState_core_twice ctx S (ctx.Cores j)
    · simp only [if_neg hj]
  · intro hbal
    subst hbal
    simp only [SetPerformanceState_result]
    congr 1
    funext j
    by_cases hj : j.val < ctx.CoreCount
    · simp only [if_pos hj]
      exact SetPerformanceState_core_balanced ctx (ctx.Cores j)
    · simp only [if_neg hj]

/-- Witness of C1 (amended): the freshly initialized engine and `Performance`. -/
theorem set_state_idempotent_up_to_temperature_witness :
    ∃ c1 c2, SetPerformanceState freshContext STATE_PERFORMANCE = some (STATUS_SUCCESS, c1) ∧
      setStateTwice freshContext STATE_PERFORMANCE = some (STATUS_SUCCESS, c2) ∧
      c2.GlobalState = c1.GlobalState ∧
      (∀ j, { c2.Cores j with Temperature := (c1.Cores j).Temperature } = c1.Cores j) ∧
      (STATE_PERFORMANCE = STATE_BALANCED → c2 = c1) :=
  set_state_idempotent_up_to_temperature freshContext STATE_PERFORMANCE (by decide) (by decide)
    (by decide)

/-! ## Telemetry aggregation -/

theorem sumFirst_zero (c : DRIVER_CONTEXT) (f : CPU_CORE_INFO → Nat) : sumFirst c 0 f = 0 := by
  simp [sumFirst]

theorem sumFirst_succ (c : DRIVER_CONTEXT) (f : CPU_CORE_INFO → Nat) (k : Nat)
    (hk : k < MAX_CPU_CORES) : sumFirst c (k + 1) f = sumFirst c k f + f (c.Cores ⟨k, hk⟩) := by
  unfold sumFirst
  have hset : (Finset.univ.filter fun j : Fin MAX_CPU_CORES => j.val < k + 1)
      = insert (⟨k, hk⟩ : Fin MAX_CPU_CORES)
          (Finset.univ.filter fun j : Fin MAX_CPU_CORES => j.val < k) := by
    ext j
    simp only [Finset.mem_filter, Finset.mem_univ, true_and, Finset.mem_insert, Fin.ext_iff]
    omega
  rw [hset, Finset.sum_insert (by simp), Nat.add_comm]

theorem wrap32_add_wrap32 (a b : Nat) : wrap32 (wrap32 a + b) = wrap32 (a + b) := by
  simp [wrap32, Nat.mod_add_mod]

theorem wrap32_of_lt (a : Nat) (h : a < 4294967296) : wrap32 a = a := Nat.mod_eq_of_lt h

/-- The summation loop of `GetPerformanceData` computes the three sums over the first `n`
records, reduced to 32 bits. -/
theorem GetPerformanceData_loop (c : DRIVER_CONTEXT) (n : Nat) (hn : n ≤ MAX_CPU_CORES) :
    forLoop n (GetPerformanceData_body c) ⟨0, 0, 0⟩
      = some ⟨wrap32 (sumFirst c n fun r => r.Utilization),
          wrap32 (sumFirst c n fun r => r.Temperature),
          wrap32 (sumFirst c n fun r => r.CurrentFrequency)⟩ := by
  induction n with
  | zero => simp [forLoop, sumFirst_zero, wrap32]
  | succ k ih =>
    have hk : k < MAX_CPU_CORES := hn
    rw [forLoop_succ, ih (Nat.le_of_lt hk), Option.some_bind]
    simp only [GetPerformanceData_body, DRIVER_CONTEXT.readCore, dif_pos hk, Option.map_some',
      wrap32_add_wrap32, sumFirst_succ c _ k hk]

/-- The record `GetPerformanceData` stores: the global state and the three quotients of the sums
over the first `CoreCount` records. -/
theorem GetPerformanceData_response (c : DRIVER_CONTEXT) (buf : List Nat)
    (h1 : 1 ≤ c.CoreCount) (hn : c.CoreCount ≤ MAX_CPU_CORES)
    (hlen : sizeof_PERFORMANCE_DATA_RESPONSE ≤ buf.length)
    (hu : sumFirst c c.CoreCount (fun r => r.Utilization) < 4294967296)
    (ht : sumFirst c c.CoreCount (fun r => r.Temperature) < 4294967296)
    (hf : sumFirst c c.CoreCount (fun r => r.CurrentFrequency) < 4294967296) :
    GetPerformanceData c (some buf) buf.length = some (STATUS_SUCCESS, some (storeBytes buf 0
      (PERFORMANCE_DATA_RESPONSE.bytes
        { State := ofInt32 c.GlobalState
          Usage := sumFirst c c.CoreCount (fun r => r.Utilization) / c.CoreCount
          Temperature := sumFirst c c.CoreCount (fun r => r.Temperature) / c.CoreCount
          PowerConsumption := c.CoreCount * 5
          CurrentFrequency := sumFirst c c.CoreCount (fun r => r.CurrentFrequency) / c.CoreCount
          Voltage := 1200 }))) := by
  have h0 : c.CoreCount ≠ 0 := by omega
  have hp : wrap32 (c.CoreCount * 5) = c.CoreCount * 5 := by
    apply wrap32_of_lt
    have : c.CoreCount ≤ 256 := hn
    omega
  unfold GetPerformanceData
  simp only []
  rw [if_neg (Nat.not_lt.mpr hlen), GetPerformanceData_loop c _ hn, Option.some_bind, if_neg h0,
    wrap32_of_lt _ hu, wrap32_of_lt _ ht, wrap32_of_lt _ hf, hp]

theorem readLe32_bytes (w b0 b1 b2 b3 : Nat) (rest : List Nat) (hw : w < 4294967296)
    (h0 : b0 = w % 256) (h1 : b1 = w / 256 % 256) (h2 : b2 = w / 65536 % 256)
    (h3 : b3 = w / 16777216 % 256) : readLe32 (b0 :: b1 :: b2 :: b3 :: rest) = w := by
  simp only [readLe32, List.getD_cons_zero, List.getD_cons_succ]
  omega

/-- The bytes in the buffer after a response record has been stored at its start. -/
theorem storeBytes_response (buf : List Nat) (r : PERFORMANCE_DATA_RESPONSE) :
    storeBytes buf 0 r.bytes =
      [r.State % 256, r.State / 256 % 256, r.State / 65536 % 256, r.State / 16777216 % 256,
        r.Usage % 256, r.Usage / 256 % 256, r.Usage / 65536 % 256, r.Usage / 16777216 % 256,
        r.Temperature % 256, r.Temperature / 256 % 256, r.Temperature / 65536 % 256,
        r.Temperature / 16777216 % 256,
        r.PowerConsumption % 256, r.PowerConsumption / 256 % 256,
        r.PowerConsumption / 65536 % 256, r.PowerConsumption / 16777216 % 256,
        r.CurrentFrequency % 256, r.CurrentFrequency / 256 % 256,
        r.CurrentFrequency / 65536 % 256, r.CurrentFrequency / 16777216 % 256,
        r.Voltage % 256, r.Voltage / 256 % 256, r.Voltage / 65536 % 256,
        r.Voltage / 16777216 % 256] ++ buf.drop 24 := rfl

/-- C9: for a context with `1 ≤ CoreCount ≤ 256` whose three sums over the first `CoreCount`
records fit 32 bits, and an output buffer of at least 24 bytes, `GetPerformanceData` succeeds
and the buffer it returns holds, least significant byte first, the six 32-bit fields state =
global state (as a `ULONG`), usage, temperature, power, current frequency and voltage, where
usage, temperature and current frequency are the integer quotients of the sums of utilization,
temperature and current frequency over exactly the first `CoreCount` records by `CoreCount`,
power is `CoreCount * 5` and voltage is 1200; the bytes after the 24th are those of the
caller's buffer; reading the six fields back from the buffer gives these values. -/
theorem get_performance_data_mean (c : DRIVER_CONTEXT) (buf : List Nat)
    (h1 : 1 ≤ c.CoreCount) (hn : c.CoreCount ≤ MAX_CPU_CORES)
    (hlen : sizeof_PERFORMANCE_DATA_RESPONSE ≤ buf.length)
    (hu : sumFirst c c.CoreCount (fun r => r.Utilization) < 4294967296)
    (ht : sumFirst c c.CoreCount (fun r => r.Temperature) < 4294967296)
    (hf : sumFirst c c.CoreCount (fun r => r.CurrentFrequency) < 4294967296) :
    ∃ out state usage temperature power freq voltage,
      GetPerformanceData c (some buf) buf.length = some (STATUS_SUCCESS, some out) ∧
      state = ofInt32 c.GlobalState ∧
      usage = sumFirst c c.CoreCount (fun r => r.Utilization) / c.CoreCount ∧
      temperature = sumFirst c c.CoreCount (fun r => r.Temperature) / c.CoreCount ∧
      power = c.CoreCount * 5 ∧
      freq = sumFirst c c.CoreCount (fun r => r.CurrentFrequency) / c.CoreCount ∧
      voltage = 1200 ∧
      out = [state % 256, state / 256 % 256, state / 65536 % 256, state / 16777216 % 256,
          usage % 256, usage / 256 % 256, usage / 65536 % 256, usage / 16777216 % 256,
          temperature % 256, temperature / 256 % 256, temperature / 65536 % 256,
          temperature / 16777216 % 256,
          power % 256, power / 256 % 256, power / 65536 % 256, power / 16777216 % 256,
          freq % 256, freq / 256 % 256, freq / 65536 % 256, freq / 16777216 % 256,
          voltage % 256, voltage / 256 % 256, voltage / 65536 % 256, voltage / 16777216 % 256]
        ++ buf.drop 24 ∧
      out.length = buf.length ∧
      readLe32 out = state ∧ readLe32 (out.drop 4) = usage ∧
      readLe32 (out.drop 8) = temperature ∧ readLe32 (out.drop 12) = power ∧
      readLe32 (out.drop 16) = freq ∧ readLe32 (out.drop 20) = voltage := by
  have hresp := GetPerformanceData_response c buf h1 hn hlen hu ht hf
  have hs : ofInt32 c.GlobalState < 4294967296 := by
    unfold ofInt32
    omega
  have hu' : sumFirst c c.CoreCount (fun r => r.Utilization) / c.CoreCount < 4294967296 :=
    Nat.lt_of_le_of_lt (Nat.div_le_self _ _) hu
  have ht' : sumFirst c c.CoreCount (fun r => r.Temperature) / c.CoreCount < 4294967296 :=
    Nat.lt_of_le_of_lt (Nat.div_le_self _ _) ht
  have hf' : sumFirst c c.CoreCount (fun r => r.CurrentFrequency) / c.CoreCount < 4294967296 :=
    Nat.lt_of_le_of_lt (Nat.div_le_self _ _) hf
  have hp' : c.CoreCount * 5 < 4294967296 := by
    have : c.CoreCount ≤ 256 := hn
    omega
  have hl : 24 ≤ buf.length := hlen
  refine ⟨_, ofInt32 c.GlobalState,
    sumFirst c c.CoreCount (fun r => r.Utilization) / c.CoreCount,
    sumFirst c c.CoreCount (fun r => r.Temperature) / c.CoreCount,
    c.CoreCount * 5,
    sumFirst c c.CoreCount (fun r => r.CurrentFrequency) / c.CoreCount,
    1200, hresp, rfl, rfl, rfl, rfl, rfl, rfl, ?_⟩
  rw [storeBytes_response]
  refine ⟨rfl, ?_, ?_, ?_, ?_, ?_, ?_, ?_⟩
  · simp only [List.length_append, List.length_cons, List.length_nil, List.length_drop]
    omega
  · exact readLe32_bytes _ _ _ _ _ _ hs rfl rfl rfl rfl
  · exact readLe32_bytes _ _ _ _ _ _ hu' rfl rfl rfl rfl
  · exact readLe32_bytes _ _ _ _ _ _ ht' rfl rfl rfl rfl
  · exact readLe32_bytes _ _ _ _ _ _ hp' rfl rfl rfl rfl
  · exact readLe32_bytes _ _ _ _ _ _ hf' rfl rfl rfl rfl
  · exact readLe32_bytes _ _ _ _ _ _ (by decide) rfl rfl rfl rfl

theorem sumFirst_nonUniform (f : CPU_CORE_INFO → Nat) :
    sumFirst nonUniformContext 3 f
      = f ⟨0, 0, 800, 800, 1600, 40, 10, STATE_BALANCED⟩
        + f ⟨1, 0, 900, 800, 1600, 41, 11, STATE_BALANCED⟩
        + f ⟨2, 0, 1200, 800, 1600, 42, 14, STATE_BALANCED⟩ := by
  rw [sumFirst_succ _ _ 2 (by decide), sumFirst_succ _ _ 1 (by decide),
    sumFirst_succ _ _ 0 (by decide), sumFirst_zero, Nat.zero_add]
  rfl

/-- Witness of C9: three cores with different records and a 26-byte buffer filled with `AA`;
the means 35/3, 123/3 and 2900/3 are truncated to 11, 41 and 966, and the buffer returned
holds 1, 11, 41, 15, 966 (`C6 03`), 1200 (`B0 04`) and keeps its last two bytes. -/
theorem get_performance_data_mean_witness :
    GetPerformanceData nonUniformContext (some (List.replicate 26 0xAA))
        (List.replicate 26 0xAA).length
      = some (STATUS_SUCCESS, some [1, 0, 0, 0, 11, 0, 0, 0, 41, 0, 0, 0, 15, 0, 0, 0,
          0xC6, 0x03, 0, 0, 0xB0, 0x04, 0, 0, 0xAA, 0xAA]) := by
  obtain ⟨out, state, usage, temperature, power, freq, voltage, h, hs, hu, ht, hp, hf, hv,
      hout, _⟩ :=
    get_performance_data_mean nonUniformContext (List.replicate 26 0xAA) (by decide)
      (by decide) (by decide)
      (by rw [show nonUniformContext.CoreCount = 3 from rfl, sumFirst_nonUniform]; decide)
      (by rw [show nonUniformContext.CoreCount = 3 from rfl, sumFirst_nonUniform]; decide)
      (by rw [show nonUniformContext.CoreCount = 3 from rfl, sumFirst_nonUniform]; decide)
  rw [show nonUniformContext.CoreCount = 3 from rfl, sumFirst_nonUniform] at hu ht hf
  have hs1 : state = 1 := hs.trans (by decide)
  have hu1 : usage = 11 := hu.trans (by decide)
  have ht1 : temperature = 41 := ht.trans (by decide)
  have hp1 : power = 15 := hp.trans (by decide)
  have hf1 : freq = 966 := hf.trans (by decide)
  rw [h, hout, hs1, hu1, ht1, hp1, hf1, hv]
  rfl

/-! ## Validation of the requested state -/

/-- A state above `STATE_EXTREME` is rejected and nothing changes. -/
theorem SetPerformanceState_rejects (ctx : DRIVER_CONTEXT) (State : Int)
    (h : State > STATE_EXTREME) :
    SetPerformanceState ctx State = some (STATUS_INVALID_PARAMETER, ctx) := by
  unfold SetPerformanceState
  rw [if_pos h]

/-- C3 (the code at the failing input): the request Set Performance State whose state field
holds `0xFFFFFFFF`, sent to the freshly initialized engine, is not rejected: it succeeds and
the global state and the state of core 0 become `-1`. -/
theorem set_state_accepts_0xFFFFFFFF :
    (HandleIOCTL initialContext ⟨some [0xFF, 0xFF, 0xFF, 0xFF], none⟩
        IOCTL_MAHF_SET_PERFORMANCE_STATE).map
      (fun r => (r.1, r.2.1.GlobalState, (r.2.1.Cores 0).CurrentState))
      = some (STATUS_SUCCESS, -1, -1) := by
  have hs : toInt32 (readLe32 [0xFF, 0xFF, 0xFF, 0xFF]) = -1 := by decide
  have h1 := SetPerformanceState_eq freshContext (-1) (by decide) (by decide) (by decide)
  have hc : (IOCTL_MAHF_SET_PERFORMANCE_STATE = IOCTL_MAHF_GET_CPU_INFO) = False := by decide
  have hp : (IOCTL_MAHF_SET_PERFORMANCE_STATE = IOCTL_MAHF_GET_PERFORMANCE_DATA) = False := by
    decide
  rw [initialContext_eq]
  unfold HandleIOCTL
  simp only [hc, hp, if_false, if_true, WdfRequestRetrieveInputBuffer, NT_SUCCESS]
  simp only [List.length, sizeof_PERFORMANCE_STATE]
  simp only [hs, h1, ge_iff_le, Nat.reduceLeDiff, if_true, Option.getD_some, Option.map_some']
  rfl

/-! ## Target frequencies -/

/-- C4: on a context whose core count fits the table, whose maximum frequency is not zero and
whose base frequency times 12 fits 32 bits, `set_state(S)` for a valid `S` succeeds, sets the
global state to `S` and leaves every one of the first `CoreCount` records with state `S` and
current frequency `base*6/10`, `base`, `base*12/10` or `max`; for base 3000 and max 4500
these are 1800, 3000, 3600 and 4500. -/
theorem set_state_target_frequency (ctx : DRIVER_CONTEXT) (S : Int)
    (hS : STATE_POWER_SAVE ≤ S ∧ S ≤ STATE_EXTREME) (hn : ctx.CoreCount ≤ MAX_CPU_CORES)
    (hmax : ctx.MaxFrequency ≠ 0) (hb : ctx.BaseFrequency * 12 < 4294967296) :
    ∃ c1, SetPerformanceState ctx S = some (STATUS_SUCCESS, c1) ∧ c1.GlobalState = S ∧
      ∀ j : Fin MAX_CPU_CORES, j.val < ctx.CoreCount →
        (c1.Cores j).CurrentState = S ∧
        (c1.Cores j).CurrentFrequency =
          (if S = STATE_POWER_SAVE then ctx.BaseFrequency * 6 / 10
           else if S = STATE_BALANCED then ctx.BaseFrequency
           else if S = STATE_PERFORMANCE then ctx.BaseFrequency * 12 / 10
           else ctx.MaxFrequency) ∧
        (ctx.BaseFrequency = 3000 → ctx.MaxFrequency = 4500 →
          (c1.Cores j).CurrentFrequency =
            (if S = STATE_POWER_SAVE then 1800 else if S = STATE_BALANCED then 3000
             else if S = STATE_PERFORMANCE then 3600 else 4500)) := by
  refine ⟨_, SetPerformanceState_eq ctx S hS.2 hn hmax, rfl, ?_⟩
  intro j hj
  have h6 : wrap32 (ctx.BaseFrequency * 6) = ctx.BaseFrequency * 6 :=
    wrap32_of_lt _ (by omega)
  have h12 : wrap32 (ctx.BaseFrequency * 12) = ctx.BaseFrequency * 12 := wrap32_of_lt _ hb
  have hfreq : ((SetPerformanceState_result ctx S).Cores j).CurrentFrequency
      = targetFrequency ctx S := by
    simp only [SetPerformanceState_result, if_pos hj]
    rfl
  have hstate : ((SetPerformanceState_result ctx S).Cores j).CurrentState = S := by
    simp only [SetPerformanceState_result, if_pos hj]
    rfl
  have h3 : ¬ S = STATE_EXTREME → ¬ S = STATE_PERFORMANCE → ¬ S = STATE_BALANCED →
      ¬ S = STATE_POWER_SAVE → False := by
    have := hS.1
    have := hS.2
    simp only [STATE_EXTREME, STATE_PERFORMANCE, STATE_BALANCED, STATE_POWER_SAVE] at *
    omega
  refine ⟨hstate, ?_, ?_⟩
  · rw [hfreq]
    unfold targetFrequency
    rw [h6, h12]
    split_ifs <;> first | rfl | (exfalso; apply h3 <;> assumption)
  · intro hb3 hm4
    rw [hfreq]
    unfold targetFrequency
    rw [h6, h12, hb3, hm4]
    split_ifs <;> first | rfl | (exfalso; apply h3 <;> assumption)

/-- Witness of C4: base 3000, max 4500, twelve cores, `Performance`: core 0 runs at 3600. -/
theorem set_state_target_frequency_witness :
    ∃ c1, SetPerformanceState base3000Context STATE_PERFORMANCE = some (STATUS_SUCCESS, c1) ∧
      c1.GlobalState = STATE_PERFORMANCE ∧ (c1.Cores 0).CurrentState = STATE_PERFORMANCE ∧
      (c1.Cores 0).CurrentFrequency = 3600 := by
  obtain ⟨c1, h, hg, hall⟩ := set_state_target_frequency base3000Context STATE_PERFORMANCE
    (by decide) (by decide) (by decide) (by decide)
  exact ⟨c1, h, hg, (hall 0 (by decide)).1, (hall 0 (by decide)).2.2 rfl rfl⟩

/-! ## Per-core frequency update: theorems -/

theorem UpdateCoreFrequency_record_frequency (c : DRIVER_CONTEXT) (f : Nat) (r : CPU_CORE_INFO) :
    (UpdateCoreFrequency_record c f r).CurrentFrequency = f ∧
    (UpdateCoreFrequency_record c f r).BaseFrequency = r.BaseFrequency ∧
    (UpdateCoreFrequency_record c f r).MaxFrequency = r.MaxFrequency := by
  unfold UpdateCoreFrequency_record
  split_ifs <;> exact ⟨rfl, rfl, rfl⟩

/-- C5: for a core id below `CoreCount` and a frequency with `base*4/10 ≤ frequency ≤ max`,
`max` not zero, `UpdateCoreFrequency` on the simulated backend succeeds, the record of that core
has the given current frequency, which lies between `base*4/10` and `max`; base and maximum
frequency of the context and of the record are unchanged, so the bound also holds for the
fields of the record whenever they agree with the context. -/
theorem update_core_frequency_accepts (c : DRIVER_CONTEXT) (CoreId : Fin 256) (f : Nat)
    (hid : CoreId.val < c.CoreCount) (hlo : c.BaseFrequency * 4 / 10 ≤ f)
    (hhi : f ≤ c.MaxFrequency) (hmax : c.MaxFrequency ≠ 0) :
    ∃ c1, UpdateCoreFrequency c CoreId f = some (STATUS_SUCCESS, c1) ∧
      (c1.Cores CoreId).CurrentFrequency = f ∧
      c1.BaseFrequency * 4 / 10 ≤ (c1.Cores CoreId).CurrentFrequency ∧
      (c1.Cores CoreId).CurrentFrequency ≤ c1.MaxFrequency ∧
      c1.BaseFrequency = c.BaseFrequency ∧ c1.MaxFrequency = c.MaxFrequency ∧
      (c1.Cores CoreId).BaseFrequency = (c.Cores CoreId).BaseFrequency ∧
      (c1.Cores CoreId).MaxFrequency = (c.Cores CoreId).MaxFrequency ∧
      ((c.Cores CoreId).BaseFrequency = c.BaseFrequency →
        (c.Cores CoreId).MaxFrequency = c.MaxFrequency →
        (c1.Cores CoreId).BaseFrequency * 4 / 10 ≤ (c1.Cores CoreId).CurrentFrequency ∧
        (c1.Cores CoreId).CurrentFrequency ≤ (c1.Cores CoreId).MaxFrequency) := by
  have hw : wrap32 (c.BaseFrequency * 4) / 10 ≤ c.BaseFrequency * 4 / 10 :=
    Nat.div_le_div_right (Nat.mod_le _ _)
  have hr : ¬ (f < wrap32 (c.BaseFrequency * 4) / 10 ∨ f > c.MaxFrequency) := by omega
  have hrec := UpdateCoreFrequency_record_frequency c f (c.Cores CoreId)
  refine ⟨{ c with
    Cores := Function.update c.Cores CoreId
      (UpdateCoreFrequency_record c f (c.Cores CoreId)) }, ?_, ?_⟩
  · rw [UpdateCoreFrequency_eq, if_neg (Nat.not_le_of_lt hid), if_neg hr,
      UpdateCoreFrequency_commit, if_neg hmax]
  · have hsame : Function.update c.Cores CoreId
        (UpdateCoreFrequency_record c f (c.Cores CoreId)) CoreId
        = UpdateCoreFrequency_record c f (c.Cores CoreId) := Function.update_same _ _ _
    dsimp only
    rw [hsame]
    refine ⟨hrec.1, ?_, ?_, rfl, rfl, hrec.2.1, hrec.2.2, ?_⟩
    · rw [hrec.1]; exact hlo
    · rw [hrec.1]; exact hhi
    · intro hb hm
      rw [hrec.1, hrec.2.1, hrec.2.2, hb, hm]
      exact ⟨hlo, hhi⟩

/-- Witness of C5: core 3 of the freshly initialized engine is set to 1000 MHz. -/
theorem update_core_frequency_accepts_witness :
    ∃ c1, UpdateCoreFrequency freshContext 3 1000 = some (STATUS_SUCCESS, c1) ∧
      (c1.Cores 3).CurrentFrequency = 1000 ∧
      (c1.Cores 3).BaseFrequency * 4 / 10 ≤ (c1.Cores 3).CurrentFrequency ∧
      (c1.Cores 3).CurrentFrequency ≤ (c1.Cores 3).MaxFrequency := by
  obtain ⟨c1, h, hf, _, _, _, _, _, _, hrec⟩ := update_core_frequency_accepts freshContext 3 1000
    (by decide) (by decide) (by decide) (by decide)
  exact ⟨c1, h, hf, hrec rfl rfl⟩

/-- C6: a core id not below `CoreCount` (any frequency), or a frequency below `base*4/10` or
above `max` (any core id), makes `UpdateCoreFrequency` return `STATUS_INVALID_PARAMETER` with
the context unchanged.  For the lower bound `base*4` is taken within 32 bits, as it is for
every base frequency the detector produces, so that the product the code computes is the
number `base*4`. -/
theorem update_core_frequency_rejects (c : DRIVER_CONTEXT) (CoreId : Fin 256) (f : Nat)
    (h : CoreId.val ≥ c.CoreCount ∨
      (f < c.BaseFrequency * 4 / 10 ∧ c.BaseFrequency * 4 < 4294967296) ∨
      f > c.MaxFrequency) :
    UpdateCoreFrequency c CoreId f = some (STATUS_INVALID_PARAMETER, c) := by
  rw [UpdateCoreFrequency_eq]
  by_cases hid : CoreId.val ≥ c.CoreCount
  · rw [if_pos hid]
  · rw [if_neg hid]
    rcases h.resolve_left hid with ⟨hlo, hb⟩ | hhi
    · rw [wrap32_of_lt _ hb, if_pos (Or.inl hlo)]
    · rw [if_pos (Or.inr hhi)]

/-- Witness of C6: on the freshly initialized engine (12 cores, range 320..1600) core id 12,
frequency 319 and frequency 1601 are rejected. -/
theorem update_core_frequency_rejects_witness :
    UpdateCoreFrequency freshContext 12 800 = some (STATUS_INVALID_PARAMETER, freshContext) ∧
    UpdateCoreFrequency freshContext 0 319 = some (STATUS_INVALID_PARAMETER, freshContext) ∧
    UpdateCoreFrequency freshContext 0 1601 = some (STATUS_INVALID_PARAMETER, freshContext) :=
  ⟨update_core_frequency_rejects freshContext 12 800 (Or.inl (by decide)),
   update_core_frequency_rejects freshContext 0 319
     (Or.inr (Or.inl ⟨by decide, by decide⟩)),
   update_core_frequency_rejects freshContext 0 1601 (Or.inr (Or.inr (by decide)))⟩

/-! ## Request dispatcher: theorems -/

theorem ioctl_codes :
    IOCTL_MAHF_GET_CPU_INFO = 0x88802000 ∧ IOCTL_MAHF_GET_PERFORMANCE_DATA = 0x88802004 ∧
    IOCTL_MAHF_SET_PERFORMANCE_STATE = 0x8880A008 ∧ IOCTL_MAHF_RESET_DRIVER = 0x8880A00C := by
  decide

theorem HandleIOCTL_reset (c : DRIVER_CONTEXT) (Request : WDFREQUEST) :
    HandleIOCTL c Request IOCTL_MAHF_RESET_DRIVER
      = some (STATUS_SUCCESS, freshContext, Request) := by
  unfold HandleIOCTL
  simp only [ioctl_codes.1, ioctl_codes.2.1, ioctl_codes.2.2.1, ioctl_codes.2.2.2,
    InitializeDriverContext_eq, Option.map_some']
  simp

theorem OnDeviceControl_reset (c : DRIVER_CONTEXT) (Request : WDFREQUEST) :
    OnDeviceControl c Request IOCTL_MAHF_RESET_DRIVER
      = some (STATUS_SUCCESS, freshContext, Request) := by
  unfold OnDeviceControl
  simp only [HandleIOCTL_reset, Option.map_some', NT_SUCCESS]
  rfl

/-- C8: whatever the engine state, the Reset request succeeds and leaves the global state
Balanced and every record of the core table, in particular the first `CoreCount`, with current
frequency = base frequency, temperature 40, utilization 10 and state Balanced; the core table
is the one of a fresh initialization. -/
theorem reset_restores_defaults (c : DRIVER_CONTEXT) (Request : WDFREQUEST) :
    ∃ c1, OnDeviceControl c Request IOCTL_MAHF_RESET_DRIVER = some (STATUS_SUCCESS, c1, Request) ∧
      c1.GlobalState = STATE_BALANCED ∧
      (∀ j : Fin MAX_CPU_CORES,
        (c1.Cores j).CurrentFrequency = c1.BaseFrequency ∧ (c1.Cores j).Temperature = 40 ∧
        (c1.Cores j).Utilization = 10 ∧ (c1.Cores j).CurrentState = STATE_BALANCED) ∧
      c1.Cores = initialContext.Cores := by
  refine ⟨freshContext, OnDeviceControl_reset c Request, rfl, fun j => ⟨rfl, rfl, rfl, rfl⟩, ?_⟩
  rw [initialContext_eq]

/-- The retrieval of an output buffer shorter than `n` bytes yields a null pointer or a length
below `n`. -/
theorem retrieve_output_short (Request : WDFREQUEST) (n : Nat)
    (h : ∀ b, Request.OutputBuffer = some b → b.length < n) :
    (WdfRequestRetrieveOutputBuffer Request = (STATUS_BUFFER_TOO_SMALL, none, 0)) ∨
    (∃ b, Request.OutputBuffer = some b ∧ b.length < n ∧
      WdfRequestRetrieveOutputBuffer Request = (STATUS_SUCCESS, some b, b.length)) := by
  unfold WdfRequestRetrieveOutputBuffer
  cases hob : Request.OutputBuffer with
  | none => exact Or.inl rfl
  | some b =>
    cases b with
    | nil => exact Or.inl rfl
    | cons x xs => exact Or.inr ⟨x :: xs, rfl, h _ hob, rfl⟩

/-- C10: a Get CPU Info or Get Performance Data request whose output buffer is absent or
shorter than the response structure (92 and 24 bytes), and a Set Performance State request
whose input is absent or shorter than the 4-byte state, fail with `STATUS_BUFFER_TOO_SMALL`;
the context (core table, identity, global state) and the request with its buffers are
unchanged. -/
theorem short_buffer_rejected (c : DRIVER_CONTEXT) (Request : WDFREQUEST) :
    ((∀ b, Request.OutputBuffer = some b → b.length < sizeof_CPU_INFO_RESPONSE) →
      HandleIOCTL c Request IOCTL_MAHF_GET_CPU_INFO
        = some (STATUS_BUFFER_TOO_SMALL, c, Request)) ∧
    ((∀ b, Request.OutputBuffer = some b → b.length < sizeof_PERFORMANCE_DATA_RESPONSE) →
      HandleIOCTL c Request IOCTL_MAHF_GET_PERFORMANCE_DATA
        = some (STATUS_BUFFER_TOO_SMALL, c, Request)) ∧
    ((∀ b, Request.InputBuffer = some b → b.length < sizeof_PERFORMANCE_STATE) →
      HandleIOCTL c Request IOCTL_MAHF_SET_PERFORMANCE_STATE
        = some (STATUS_BUFFER_TOO_SMALL, c, Request)) := by
  refine ⟨?_, ?_, ?_⟩
  · intro h
    unfold HandleIOCTL
    simp only [if_true]
    rcases retrieve_output_short Request _ h with hr | ⟨b, hob, hlen, hr⟩
    · rw [hr]
      simp [NT_SUCCESS, GetCPUInfo]
    · rw [hr]
      simp [NT_SUCCESS, GetCPUInfo, hlen, hob]
      rw [← hob]
  · intro h
    unfold HandleIOCTL
    simp only [ioctl_codes.1, ioctl_codes.2.1, ioctl_codes.2.2.1, ioctl_codes.2.2.2]
    rcases retrieve_output_short Request _ h with hr | ⟨b, hob, hlen, hr⟩
    · rw [hr]
      simp [NT_SUCCESS, GetPerformanceData]
    · rw [hr]
      simp [NT_SUCCESS, GetPerformanceData, hlen, hob]
      rw [← hob]
  · intro h
    unfold HandleIOCTL
    simp only [ioctl_codes.1, ioctl_codes.2.1, ioctl_codes.2.2.1, ioctl_codes.2.2.2]
    unfold WdfRequestRetrieveInputBuffer
    cases hib : Request.InputBuffer with
    | none => simp [NT_SUCCESS, sizeof_PERFORMANCE_STATE]
    | some b =>
      cases b with
      | nil => simp [NT_SUCCESS, sizeof_PERFORMANCE_STATE]
      | cons x xs =>
        have := h _ hib
        simp only [sizeof_PERFORMANCE_STATE] at this
        simp [NT_SUCCESS, sizeof_PERFORMANCE_STATE]
        simp at this
        omega

/-- Witness of C10: buffers one byte short (91 and 23 bytes) and a 3-byte input. -/
theorem short_buffer_rejected_witness :
    HandleIOCTL freshContext ⟨none, some (List.replicate 91 0xAA)⟩ IOCTL_MAHF_GET_CPU_INFO
      = some (STATUS_BUFFER_TOO_SMALL, freshContext, ⟨none, some (List.replicate 91 0xAA)⟩) ∧
    HandleIOCTL freshContext ⟨none, some (List.replicate 23 0xAA)⟩
        IOCTL_MAHF_GET_PERFORMANCE_DATA
      = some (STATUS_BUFFER_TOO_SMALL, freshContext, ⟨none, some (List.replicate 23 0xAA)⟩) ∧
    HandleIOCTL freshContext ⟨some [3, 0, 0], none⟩ IOCTL_MAHF_SET_PERFORMANCE_STATE
      = some (STATUS_BUFFER_TOO_SMALL, freshContext, ⟨some [3, 0, 0], none⟩) :=
  ⟨(short_buffer_rejected freshContext ⟨none, some (List.replicate 91 0xAA)⟩).1
      (fun b hb => by rw [← Option.some.inj hb]; decide),
   (short_buffer_rejected freshContext ⟨none, some (List.replicate 23 0xAA)⟩).2.1
      (fun b hb => by rw [← Option.some.inj hb]; decide),
   (short_buffer_rejected freshContext ⟨some [3, 0, 0], none⟩).2.2
      (fun b hb => by rw [← Option.some.inj hb]; decide)⟩

theorem GetPerformanceData_returns (c : DRIVER_CONTEXT) (out : Option (List Nat)) (len : Nat)
    (h1 : 1 ≤ c.CoreCount) (hn : c.CoreCount ≤ MAX_CPU_CORES) :
    ∃ r, GetPerformanceData c out len = some r := by
  have h0 : ¬ c.CoreCount = 0 := by omega
  unfold GetPerformanceData
  cases out with
  | none => exact ⟨_, rfl⟩
  | some buf =>
    simp only []
    by_cases hl : len < sizeof_PERFORMANCE_DATA_RESPONSE
    · rw [if_pos hl]
      exact ⟨_, rfl⟩
    · rw [if_neg hl, GetPerformanceData_loop c _ hn, Option.some_bind, if_neg h0]
      exact ⟨_, rfl⟩

/-- Every request returns; the context afterwards is the one before, the closed form of
`SetPerformanceState`, or the freshly initialized one. -/
theorem HandleIOCTL_cases (c : DRIVER_CONTEXT) (Request : WDFREQUEST) (code : Nat)
    (h1 : 1 ≤ c.CoreCount) (hn : c.CoreCount ≤ MAX_CPU_CORES) (hmax : c.MaxFrequency ≠ 0) :
    ∃ st c1 r1, HandleIOCTL c Request code = some (st, c1, r1) ∧
      (c1 = c ∧ code ≠ IOCTL_MAHF_RESET_DRIVER ∨
       (∃ S, S ≤ STATE_EXTREME ∧ st = STATUS_SUCCESS ∧ c1 = SetPerformanceState_result c S ∧
          code ≠ IOCTL_MAHF_RESET_DRIVER) ∨
       (code = IOCTL_MAHF_RESET_DRIVER ∧ st = STATUS_SUCCESS ∧ c1 = freshContext)) := by
  by_cases hreset : code = IOCTL_MAHF_RESET_DRIVER
  · subst hreset
    exact ⟨_, _, _, HandleIOCTL_reset c Request, Or.inr (Or.inr ⟨rfl, rfl, rfl⟩)⟩
  · unfold HandleIOCTL
    simp only []
    by_cases hc : code = IOCTL_MAHF_GET_CPU_INFO
    · rw [if_pos hc]
      exact ⟨_, _, _, rfl, Or.inl ⟨rfl, hreset⟩⟩
    · rw [if_neg hc]
      by_cases hp : code = IOCTL_MAHF_GET_PERFORMANCE_DATA
      · rw [if_pos hp]
        obtain ⟨r, hr⟩ := GetPerformanceData_returns c
          (if (!NT_SUCCESS (WdfRequestRetrieveOutputBuffer Request).1) = true ∧
            (WdfRequestRetrieveOutputBuffer Request).1 ≠ STATUS_BUFFER_TOO_SMALL then none
            else (WdfRequestRetrieveOutputBuffer Request).2.1)
          (if (!NT_SUCCESS (WdfRequestRetrieveOutputBuffer Request).1) = true ∧
            (WdfRequestRetrieveOutputBuffer Request).1 ≠ STATUS_BUFFER_TOO_SMALL then 0
            else (WdfRequestRetrieveOutputBuffer Request).2.2) h1 hn
        rw [hr]
        exact ⟨_, _, _, rfl, Or.inl ⟨rfl, hreset⟩⟩
      · rw [if_neg hp]
        by_cases hs : code = IOCTL_MAHF_SET_PERFORMANCE_STATE
        · rw [if_pos hs]
          by_cases hlen : (if (!NT_SUCCESS (WdfRequestRetrieveInputBuffer Request).1) = true ∧
              (WdfRequestRetrieveInputBuffer Request).1 ≠ STATUS_BUFFER_TOO_SMALL then 0
              else (WdfRequestRetrieveInputBuffer Request).2.2) ≥ sizeof_PERFORMANCE_STATE
          · rw [if_pos hlen]
            by_cases hS : toInt32 (readLe32
                ((if (!NT_SUCCESS (WdfRequestRetrieveInputBuffer Request).1) = true ∧
                  (WdfRequestRetrieveInputBuffer Request).1 ≠ STATUS_BUFFER_TOO_SMALL then none
                  else (WdfRequestRetrieveInputBuffer Request).2.1).getD [])) > STATE_EXTREME
            · rw [SetPerformanceState_rejects c _ hS]
              exact ⟨_, _, _, rfl, Or.inl ⟨rfl, hreset⟩⟩
            · rw [SetPerformanceState_eq c _ (not_lt.mp hS) hn hmax]
              exact ⟨_, _, _, rfl, Or.inr (Or.inl ⟨_, not_lt.mp hS, rfl, rfl, hreset⟩)⟩
          · rw [if_neg hlen]
            exact ⟨_, _, _, rfl, Or.inl ⟨rfl, hreset⟩⟩
        · rw [if_neg hs, if_neg hreset]
          exact ⟨_, _, _, rfl, Or.inl ⟨rfl, hreset⟩⟩

/-! ## Accounting -/

theorem wrap64_of_lt (a : Nat) (h : a < 18446744073709551616) : wrap64 a = a :=
  Nat.mod_eq_of_lt h

/-- C2 (counterexample): on the freshly initialized engine an unrecognized request (code 0)
fails and leaves both counters at 1; the Reset request that follows succeeds and leaves both
counters at 0, not at 2 and 1. -/
theorem reset_clears_counters :
    ((OnDeviceControl initialContext ⟨none, none⟩ 0).bind fun r =>
      (OnDeviceControl r.2.1 ⟨none, none⟩ IOCTL_MAHF_RESET_DRIVER).map fun r1 =>
        (r.1, r.2.1.TotalOperations, r.2.1.FailedOperations,
          r1.1, r1.2.1.TotalOperations, r1.2.1.FailedOperations))
      = some (STATUS_INVALID_DEVICE_REQUEST, 1, 1, STATUS_SUCCESS, 0, 0) := by
  have h0 : OnDeviceControl initialContext ⟨none, none⟩ 0
      = some (STATUS_INVALID_DEVICE_REQUEST,
          { freshContext with TotalOperations := 1, FailedOperations := 1 }, ⟨none, none⟩) := by
    rw [initialContext_eq]
    unfold OnDeviceControl HandleIOCTL
    simp only [ioctl_codes.1, ioctl_codes.2.1, ioctl_codes.2.2.1, ioctl_codes.2.2.2]
    rfl
  rw [h0, Option.some_bind, OnDeviceControl_reset]
  rfl

/-- C2 (amended): in an engine state with `1 ≤ CoreCount ≤ 256`, a non-zero maximum frequency
and counters below the 64-bit limit, every request returns; for every request other than
Reset, `TotalOperations` is one greater than before and `FailedOperations` is one greater if
the request failed and unchanged if it succeeded; a Reset request succeeds and leaves both
counters at 0. -/
theorem dispatcher_accounting (c : DRIVER_CONTEXT) (Request : WDFREQUEST) (code : Nat)
    (h1 : 1 ≤ c.CoreCount) (hn : c.CoreCount ≤ MAX_CPU_CORES) (hmax : c.MaxFrequency ≠ 0)
    (ht : c.TotalOperations + 1 < 18446744073709551616)
    (hf : c.FailedOperations + 1 < 18446744073709551616) :
    ∃ st c1 r1, OnDeviceControl c Request code = some (st, c1, r1) ∧
      (code ≠ IOCTL_MAHF_RESET_DRIVER →
        c1.TotalOperations = c.TotalOperations + 1 ∧
        c1.FailedOperations = c.FailedOperations + (if NT_SUCCESS st then 0 else 1)) ∧
      (code = IOCTL_MAHF_RESET_DRIVER →
        st = STATUS_SUCCESS ∧ c1.TotalOperations = 0 ∧ c1.FailedOperations = 0) := by
  by_cases hreset : code = IOCTL_MAHF_RESET_DRIVER
  · subst hreset
    exact ⟨_, _, _, OnDeviceControl_reset c Request, fun h => absurd rfl h,
      fun _ => ⟨rfl, rfl, rfl⟩⟩
  · obtain ⟨st, c1, r1, hh, hcase⟩ := HandleIOCTL_cases
      { c with TotalOperations := wrap64 (c.TotalOperations + 1) } Request code h1 hn hmax
    have hc1 : c1.TotalOperations = c.TotalOperations + 1 ∧
        c1.FailedOperations = c.FailedOperations := by
      rcases hcase with ⟨h, _⟩ | ⟨S, _, _, h, _⟩ | ⟨h, _⟩
      · rw [h]; exact ⟨wrap64_of_lt _ ht, rfl⟩
      · rw [h]; exact ⟨wrap64_of_lt _ ht, rfl⟩
      · exact absurd h hreset
    unfold OnDeviceControl
    simp only []
    rw [hh, Option.map_some']
    cases hst : NT_SUCCESS st with
    | true =>
      refine ⟨st, c1, r1, by simp [hst], fun _ => ?_, fun h => absurd h hreset⟩
      simp [hc1.1, hc1.2, hst]
    | false =>
      refine ⟨st, { c1 with FailedOperations := wrap64 (c1.FailedOperations + 1) }, r1,
        by simp [hst], fun _ => ?_, fun h => absurd h hreset⟩
      simp only [hc1.1, hc1.2, wrap64_of_lt _ hf]
      simp [hst]

/-- Witness of C2 (amended): a Get CPU Info request without an output buffer on the freshly
initialized engine. -/
theorem dispatcher_accounting_witness :
    ∃ st c1 r1, OnDeviceControl freshContext ⟨none, none⟩ IOCTL_MAHF_GET_CPU_INFO
        = some (st, c1, r1) ∧
      c1.TotalOperations = 1 ∧ c1.FailedOperations = (if NT_SUCCESS st then 0 else 1) := by
  obtain ⟨st, c1, r1, h, hne, _⟩ := dispatcher_accounting freshContext ⟨none, none⟩
    IOCTL_MAHF_GET_CPU_INFO (by decide) (by decide) (by decide) (by decide) (by decide)
  have := hne (by decide)
  exact ⟨st, c1, r1, h, this.1, by
    rw [this.2, show freshContext.FailedOperations = 0 from rfl, Nat.zero_add]⟩

/-! ## The invariant of the core records -/

theorem SimInvariant_fresh : SimInvariant freshContext :=
  ⟨rfl, rfl, rfl, fun _ _ => ⟨rfl, rfl, (by decide : 320 ≤ 800), (by decide : 800 ≤ 1600),
    (by decide : 10 ≤ 100), (by decide : 30 ≤ 40), (by decide : 40 ≤ 100)⟩⟩

/-- With base 800 and maximum 1600 one iteration of `SetPerformanceState` keeps a record within
its bounds, whatever state passed validation. -/
theorem SetPerformanceState_core_bounds (c : DRIVER_CONTEXT) (S : Int) (r : CPU_CORE_INFO)
    (hb : c.BaseFrequency = 800) (hm : c.MaxFrequency = 1600)
    (hr : r.BaseFrequency = 800 ∧ r.MaxFrequency = 1600 ∧
      320 ≤ r.CurrentFrequency ∧ r.CurrentFrequency ≤ 1600 ∧ r.Utilization ≤ 100 ∧
      30 ≤ r.Temperature ∧ r.Temperature ≤ 100) :
    (SetPerformanceState_core c S r).BaseFrequency = 800 ∧
    (SetPerformanceState_core c S r).MaxFrequency = 1600 ∧
    320 ≤ (SetPerformanceState_core c S r).CurrentFrequency ∧
    (SetPerformanceState_core c S r).CurrentFrequency ≤ 1600 ∧
    (SetPerformanceState_core c S r).Utilization ≤ 100 ∧
    30 ≤ (SetPerformanceState_core c S r).Temperature ∧
    (SetPerformanceState_core c S r).Temperature ≤ 100 := by
  obtain ⟨h1, h2, h3, h4, h5, h6, h7⟩ := hr
  have ht : targetFrequency c S = 480 ∨ targetFrequency c S = 800 ∨ targetFrequency c S = 960 ∨
      targetFrequency c S = 1600 := by
    unfold targetFrequency
    rw [hb, hm]
    split_ifs
    · exact Or.inl (by decide)
    · exact Or.inr (Or.inl rfl)
    · exact Or.inr (Or.inr (Or.inl (by decide)))
    · exact Or.inr (Or.inr (Or.inr rfl))
    · exact Or.inr (Or.inl rfl)
  have hu : ∀ x, cmin x 100 ≤ 100 := by
    intro x
    unfold cmin
    split_ifs <;> omega
  have hlo : wrap32 (800 * 4) / 10 = 320 := by decide
  unfold SetPerformanceState_core UpdateCoreFrequency_record
  simp only [hb, hm, hlo]
  rcases ht with ht | ht | ht | ht <;> rw [ht] <;> simp only [wrap32, cmin, cmax] <;>
    split_ifs <;> (try dsimp only) <;> omega

theorem SimInvariant_setState (c : DRIVER_CONTEXT) (S : Int) (h : SimInvariant c) :
    SimInvariant (SetPerformanceState_result c S) := by
  obtain ⟨hc, hb, hm, hall⟩ := h
  refine ⟨hc, hb, hm, fun j hj => ?_⟩
  have hj1 : j.val < c.CoreCount := by omega
  simp only [SetPerformanceState_result, if_pos hj1]
  exact SetPerformanceState_core_bounds c S _ hb hm (hall j hj)

theorem SimInvariant_step (c c1 : DRIVER_CONTEXT) (Request Request1 : WDFREQUEST) (code : Nat)
    (st : NTSTATUS) (h : SimInvariant c)
    (hstep : OnDeviceControl c Request code = some (st, c1, Request1)) : SimInvariant c1 := by
  have hinv : SimInvariant { c with TotalOperations := wrap64 (c.TotalOperations + 1) } := h
  obtain ⟨st1, c2, r2, hh, hcase⟩ := HandleIOCTL_cases
    { c with TotalOperations := wrap64 (c.TotalOperations + 1) } Request code
    (by rw [show ({ c with TotalOperations := wrap64 (c.TotalOperations + 1) } :
      DRIVER_CONTEXT).CoreCount = 12 from h.1]; decide)
    (by rw [show ({ c with TotalOperations := wrap64 (c.TotalOperations + 1) } :
      DRIVER_CONTEXT).CoreCount = 12 from h.1]; decide)
    (by rw [show ({ c with TotalOperations := wrap64 (c.TotalOperations + 1) } :
      DRIVER_CONTEXT).MaxFrequency = 1600 from h.2.2.1]; decide)
  have h2 : SimInvariant c2 := by
    rcases hcase with ⟨e, _⟩ | ⟨S, _, _, e, _⟩ | ⟨_, _, e⟩
    · rw [e]; exact hinv
    · rw [e]; exact SimInvariant_setState _ S hinv
    · rw [e]; exact SimInvariant_fresh
  unfold OnDeviceControl at hstep
  simp only [] at hstep
  rw [hh, Option.map_some'] at hstep
  have hc1 := congrArg (fun x => x.2.1) (Option.some.inj hstep)
  simp only [] at hc1
  rw [← hc1]
  split_ifs
  · exact h2
  · exact h2

theorem Reachable_SimInvariant (c : DRIVER_CONTEXT) (h : Reachable c) : SimInvariant c := by
  induction h with
  | init => rw [initialContext_eq]; exact SimInvariant_fresh
  | step c c1 Request Request1 code st _ hstep ih =>
    exact SimInvariant_step c c1 Request Request1 code st ih hstep

/-- C7: in every engine state reachable from initialization by requests, every one of the
first `CoreCount` records satisfies `BaseFrequency*4/10 ≤ CurrentFrequency ≤ MaxFrequency`,
`Utilization ≤ 100` and `30 ≤ Temperature ≤ 100`; and every request sent in such a state
returns, so every sequence of requests stays among these states. -/
theorem reachable_core_record_invariant (c : DRIVER_CONTEXT) (h : Reachable c) :
    (∀ j : Fin MAX_CPU_CORES, j.val < c.CoreCount →
      (c.Cores j).BaseFrequency * 4 / 10 ≤ (c.Cores j).CurrentFrequency ∧
      (c.Cores j).CurrentFrequency ≤ (c.Cores j).MaxFrequency ∧
      (c.Cores j).Utilization ≤ 100 ∧
      30 ≤ (c.Cores j).Temperature ∧ (c.Cores j).Temperature ≤ 100) ∧
    (∀ (Request : WDFREQUEST) (code : Nat), ∃ st c1 r1,
      OnDeviceControl c Request code = some (st, c1, r1) ∧ Reachable c1) := by
  obtain ⟨hc, hb, hm, hall⟩ := Reachable_SimInvariant c h
  constructor
  · intro j hj
    obtain ⟨h1, h2, h3, h4, h5, h6, h7⟩ := hall j (by omega)
    rw [h1, h2]
    exact ⟨h3, h4, h5, h6, h7⟩
  · intro Request code
    obtain ⟨st1, c2, r2, hh, _⟩ := HandleIOCTL_cases
      { c with TotalOperations := wrap64 (c.TotalOperations + 1) } Request code
      (by rw [show ({ c with TotalOperations := wrap64 (c.TotalOperations + 1) } :
        DRIVER_CONTEXT).CoreCount = 12 from hc]; decide)
      (by rw [show ({ c with TotalOperations := wrap64 (c.TotalOperations + 1) } :
        DRIVER_CONTEXT).CoreCount = 12 from hc]; decide)
      (by rw [show ({ c with TotalOperations := wrap64 (c.TotalOperations + 1) } :
        DRIVER_CONTEXT).MaxFrequency = 1600 from hm]; decide)
    have hstep : ∃ r, OnDeviceControl c Request code = some r := by
      unfold OnDeviceControl
      simp only []
      rw [hh, Option.map_some']
      exact ⟨_, rfl⟩
    obtain ⟨⟨st, c1, r1⟩, hr⟩ := hstep
    exact ⟨st, c1, r1, hr, Reachable.step c c1 Request r1 code st h hr⟩

/-- Witness of C7: the freshly initialized engine is reachable; its core 11 is within the
bounds and an unrecognized request (code 0) returns in it. -/
theorem reachable_core_record_invariant_witness :
    ((initialContext.Cores 11).BaseFrequency * 4 / 10 ≤ (initialContext.Cores 11).CurrentFrequency ∧
      (initialContext.Cores 11).CurrentFrequency ≤ (initialContext.Cores 11).MaxFrequency ∧
      (initialContext.Cores 11).Utilization ≤ 100 ∧
      30 ≤ (initialContext.Cores 11).Temperature ∧ (initialContext.Cores 11).Temperature ≤ 100) ∧
    ∃ st c1 r1, OnDeviceControl initialContext ⟨none, none⟩ 0 = some (st, c1, r1) ∧
      Reachable c1 :=
  ⟨(reachable_core_record_invariant initialContext Reachable.init).1 11
      (by rw [initialContext_eq]; decide),
    (reachable_core_record_invariant initialContext Reachable.init).2 ⟨none, none⟩ 0⟩

/-! ## Topology detection: theorems -/

/-- The routine `DetectCPUArchitecture` is the parameterised routine at the simulated
backend. -/
theorem DetectCPUArchitecture_eq_With (c : DRIVER_CONTEXT) :
    DetectCPUArchitecture c = DetectCPUArchitectureWith GetCPUID ReadMSR c := rfl

/-- The routine `InitializeDriverContext` is the parameterised routine at the simulated
backend. -/
theorem InitializeDriverContext_eq_With (c : DRIVER_CONTEXT) :
    InitializeDriverContext c = InitializeDriverContextWith GetCPUID ReadMSR c := rfl

/-! ## Unrecognized requests -/

/-- C11: for every request code other than the four defined ones, `HandleIOCTL` returns
`STATUS_INVALID_DEVICE_REQUEST` and leaves the whole context (identity, global state, every
core record) and the request unchanged. -/
theorem unrecognized_request_rejected (c : DRIVER_CONTEXT) (Request : WDFREQUEST) (code : Nat)
    (h : code ≠ IOCTL_MAHF_GET_CPU_INFO ∧ code ≠ IOCTL_MAHF_GET_PERFORMANCE_DATA ∧
      code ≠ IOCTL_MAHF_SET_PERFORMANCE_STATE ∧ code ≠ IOCTL_MAHF_RESET_DRIVER) :
    HandleIOCTL c Request code = some (STATUS_INVALID_DEVICE_REQUEST, c, Request) := by
  unfold HandleIOCTL
  simp only []
  rw [if_neg h.1, if_neg h.2.1, if_neg h.2.2.1, if_neg h.2.2.2]

/-- Witness of C11: the request codes 0 and `0x88802010` (function `0x804`) on the freshly
initialized engine. -/
theorem unrecognized_request_rejected_witness :
    HandleIOCTL freshContext ⟨some [1, 0, 0, 0], none⟩ 0
      = some (STATUS_INVALID_DEVICE_REQUEST, freshContext, ⟨some [1, 0, 0, 0], none⟩) ∧
    HandleIOCTL freshContext ⟨none, none⟩ 0x88802010
      = some (STATUS_INVALID_DEVICE_REQUEST, freshContext, ⟨none, none⟩) :=
  ⟨unrecognized_request_rejected freshContext ⟨some [1, 0, 0, 0], none⟩ 0 (by decide),
   unrecognized_request_rejected freshContext ⟨none, none⟩ 0x88802010 (by decide)⟩

/-! ## Vendor detection -/

/-- C12: whatever the array held before, the simulated `GetCPUID(0, 0, ..)` succeeds and the
vendor string built from its words in the order word 1, word 3, word 2, least significant byte
first, is "GenuineIntel" with its terminator; `DetectCPUArchitecture` stores this string and
classifies the architecture as `ARCH_INTEL`. -/
theorem vendor_is_GenuineIntel (regs : CPUID_REGISTERS) (c : DRIVER_CONTEXT) :
    (GetCPUID 0 0 (some regs)).1 = STATUS_SUCCESS ∧
    (GetCPUID 0 0 (some regs)).2.map DetectCPUArchitecture_vendor = some (GenuineIntel ++ [0]) ∧
    GenuineIntel = ("GenuineIntel".toList.map fun ch => ch.toNat) ∧
    (DetectCPUArchitecture c).1 = STATUS_SUCCESS ∧
    (DetectCPUArchitecture c).2.Architecture = ARCH_INTEL ∧
    (DetectCPUArchitecture zeroContext).2.VendorString = GenuineIntel ++ [0] ∧
    cstr (DetectCPUArchitecture zeroContext).2.VendorString = GenuineIntel := by
  refine ⟨rfl, rfl, by decide, rfl, rfl, ?_, ?_⟩
  · rw [DetectCPUArchitecture_zeroContext]
    rfl
  · rw [DetectCPUArchitecture_zeroContext]
    decide

/-! ## Frequencies of the simulated backend -/

/-- C13 (the code at the failing input): the freshly initialized engine has base frequency 800
and maximum frequency 1600, not 3000 and 4500, and `set_state(Balanced)` right after
initialization leaves core 0 at 800 MHz. -/
theorem fresh_engine_frequencies :
    (ReadMSR 0xCE (some 0)).2 = some 0x08000800 ∧
    initialContext.BaseFrequency = 800 ∧ initialContext.MaxFrequency = 1600 ∧
    (SetPerformanceState initialContext STATE_BALANCED).map
      (fun r => (r.1, (r.2.Cores 0).CurrentFrequency)) = some (STATUS_SUCCESS, 800) := by
  refine ⟨rfl, ?_, ?_, ?_⟩
  · rw [initialContext_eq]; rfl
  · rw [initialContext_eq]; rfl
  · rw [initialContext_eq,
      SetPerformanceState_eq freshContext STATE_BALANCED (by decide) (by decide) (by decide)]
    rfl

/-! ## The identification routine -/

theorem GetCPUID_null (Function SubFunction : Nat) :
    GetCPUID Function SubFunction none = (STATUS_INVALID_PARAMETER, none) := rfl

theorem GetCPUID_succeeds (Function SubFunction : Nat) (regs : CPUID_REGISTERS) :
    (GetCPUID Function SubFunction (some regs)).1 = STATUS_SUCCESS := by
  unfold GetCPUID
  split_ifs <;> rfl

/-- For a function other than 0 and 1 the array is left as it was. -/
theorem GetCPUID_unrecognized (Function SubFunction : Nat) (regs : CPUID_REGISTERS)
    (h0 : Function ≠ 0) (h1 : Function ≠ 1) :
    GetCPUID Function SubFunction (some regs) = (STATUS_SUCCESS, some regs) := by
  unfold GetCPUID
  simp only []
  rw [if_neg h0, if_neg h1]

/-- C15 (the code at the failing input): `GetCPUID(0x80000008, 0, ..)` on an array that holds
the words of function 0, as `DetectCPUArchitecture` calls it for an AMD processor, succeeds and
returns those words, not zeros; so does function 7.  The brand functions are not recognized
either: the brand string of the detected context is built from the words of function 1 and
reads `A0 06 09`. -/
theorem identify_unrecognized_keeps_words :
    GetCPUID 0x80000008 0 (GetCPUID 0 0 (some ⟨0, 0, 0, 0⟩)).2
      = (STATUS_SUCCESS, some ⟨0x0000000B, 0x756E6547, 0x6C65746E, 0x49656E69⟩) ∧
    GetCPUID 7 0 (some ⟨1, 2, 3, 4⟩) = (STATUS_SUCCESS, some ⟨1, 2, 3, 4⟩) ∧
    GetCPUID 0x80000002 0 (GetCPUID 1 0 (some ⟨0, 0, 0, 0⟩)).2
      = (STATUS_SUCCESS, some ⟨0x000906A0, 0x000C0800, 0x7FFAFBBF, 0xBFEBFBFF⟩) ∧
    cstr (DetectCPUArchitecture zeroContext).2.BrandString = [0xA0, 0x06, 0x09] := by
  refine ⟨by decide, by decide, by decide, ?_⟩
  rw [DetectCPUArchitecture_zeroContext]
  decide

/-! ## Frame of the operations that are not a reset -/

theorem Frame_refl (c : DRIVER_CONTEXT) : Frame c c := ⟨rfl, fun _ _ => rfl⟩

theorem Frame_trans (a b c : DRIVER_CONTEXT) (hab : Frame a b) (hbc : Frame b c) : Frame a c := by
  have hcount : b.CoreCount = a.CoreCount := by
    have := hab.1
    simp only [DRIVER_CONTEXT.identity, Prod.mk.injEq] at this
    exact this.2.2.2.1
  refine ⟨hbc.1.trans hab.1, fun j hj => ?_⟩
  rw [hbc.2 j (by rw [hcount]; exact hj), hab.2 j hj]

/-- A loop returns a state with a property that holds at the start and that every iteration
that returns preserves. -/
theorem forLoop_preserves {σ : Type} (P : σ → Prop) (n : Nat) (body : Nat → σ → Option σ)
    (s : σ) (hP : P s) (hbody : ∀ i, i < n → ∀ x y, P x → body i x = some y → P y) :
    ∀ y, forLoop n body s = some y → P y := by
  induction n with
  | zero =>
    intro y hy
    simp only [forLoop, Option.some.injEq] at hy
    rw [← hy]; exact hP
  | succ k ih =>
    intro y hy
    rw [forLoop_succ] at hy
    obtain ⟨x, hx, hxy⟩ := Option.bind_eq_some.mp hy
    exact hbody k (Nat.lt_succ_self k) x y
      (ih (fun i hi => hbody i (Nat.lt_succ_of_lt hi)) x hx) hxy

theorem modifyCore_frame (c c1 : DRIVER_CONTEXT) (i : Nat) (f : CPU_CORE_INFO → CPU_CORE_INFO)
    (hi : i < c.CoreCount) (h : c.modifyCore i f = some c1) : Frame c c1 := by
  unfold DRIVER_CONTEXT.modifyCore at h
  by_cases h256 : i < MAX_CPU_CORES
  · rw [dif_pos h256, Option.some.injEq] at h
    rw [← h]
    refine ⟨rfl, fun j hj => ?_⟩
    have hne : j ≠ ⟨i, h256⟩ := by
      intro e
      rw [e] at hj
      exact absurd hi (Nat.not_lt.mpr hj)
    exact Function.update_noteq hne _ _
  · rw [dif_neg h256] at h
    exact absurd h (by simp)

theorem UpdateCoreFrequency_frame (c c1 : DRIVER_CONTEXT) (CoreId : Fin 256) (f : Nat)
    (st : NTSTATUS) (h : UpdateCoreFrequency c CoreId f = some (st, c1)) : Frame c c1 := by
  rw [UpdateCoreFrequency_eq] at h
  by_cases hid : CoreId.val ≥ c.CoreCount
  · rw [if_pos hid, Option.some.injEq, Prod.mk.injEq] at h
    rw [← h.2]; exact Frame_refl c
  · rw [if_neg hid] at h
    by_cases hr : f < wrap32 (c.BaseFrequency * 4) / 10 ∨ f > c.MaxFrequency
    · rw [if_pos hr, Option.some.injEq, Prod.mk.injEq] at h
      rw [← h.2]; exact Frame_refl c
    · rw [if_neg hr] at h
      unfold UpdateCoreFrequency_commit at h
      by_cases hmax : c.MaxFrequency = 0
      · rw [if_pos hmax] at h
        exact absurd h (by simp)
      · rw [if_neg hmax, Option.some.injEq, Prod.mk.injEq] at h
        rw [← h.2]
        refine ⟨rfl, fun j hj => ?_⟩
        have hne : j ≠ CoreId := by
          intro e
          rw [e] at hj
          exact hid hj
        exact Function.update_noteq hne _ _

theorem SetPerformanceState_frame (c c1 : DRIVER_CONTEXT) (S : Int) (st : NTSTATUS)
    (h : SetPerformanceState c S = some (st, c1)) : Frame c c1 := by
  unfold SetPerformanceState at h
  by_cases hS : S > STATE_EXTREME
  · rw [if_pos hS, Option.some.injEq, Prod.mk.injEq] at h
    rw [← h.2]; exact Frame_refl c
  · rw [if_neg hS] at h
    simp only [] at h
    obtain ⟨x, hx, hxc⟩ := Option.map_eq_some'.mp h
    rw [Prod.mk.injEq] at hxc
    rw [← hxc.2]
    refine forLoop_preserves (fun x => Frame c x) c.CoreCount (SetPerformanceState_body S)
      { c with GlobalState := S } ⟨rfl, fun _ _ => rfl⟩ ?_ x hx
    intro i hi x y hfx hbody
    have hcount : x.CoreCount = c.CoreCount := by
      have := hfx.1
      simp only [DRIVER_CONTEXT.identity, Prod.mk.injEq] at this
      exact this.2.2.2.1
    unfold SetPerformanceState_body at hbody
    simp only [] at hbody
    obtain ⟨r, hr, hry⟩ := Option.bind_eq_some.mp hbody
    have h1 : Frame x r.2 := UpdateCoreFrequency_frame x r.2 _ _ r.1 hr
    have hcount1 : r.2.CoreCount = c.CoreCount := by
      have := h1.1
      simp only [DRIVER_CONTEXT.identity, Prod.mk.injEq] at this
      rw [this.2.2.2.1, hcount]
    have h2 : Frame r.2 y := modifyCore_frame r.2 y i _ (by rw [hcount1]; exact hi) hry
    exact Frame_trans c x y hfx (Frame_trans x r.2 y h1 h2)

/-- C16: whenever `SetPerformanceState` or `UpdateCoreFrequency` returns, with whatever status,
the ProcessorIdentity fields (vendor string, brand string, architecture, core count, thread
count, base and maximum frequency) and every table entry at an index not below `CoreCount` are
as before; a Get CPU Info or Get Performance Data request leaves the whole context as it
was. -/
theorem non_reset_operations_frame (c : DRIVER_CONTEXT) :
    (∀ S st c1, SetPerformanceState c S = some (st, c1) →
      c1.identity = c.identity ∧
      ∀ j : Fin MAX_CPU_CORES, c.CoreCount ≤ j.val → c1.Cores j = c.Cores j) ∧
    (∀ CoreId f st c1, UpdateCoreFrequency c CoreId f = some (st, c1) →
      c1.identity = c.identity ∧
      ∀ j : Fin MAX_CPU_CORES, c.CoreCount ≤ j.val → c1.Cores j = c.Cores j) ∧
    (∀ Request st c1 r1,
      HandleIOCTL c Request IOCTL_MAHF_GET_CPU_INFO = some (st, c1, r1) → c1 = c) ∧
    (∀ Request st c1 r1,
      HandleIOCTL c Request IOCTL_MAHF_GET_PERFORMANCE_DATA = some (st, c1, r1) → c1 = c) := by
  refine ⟨fun S st c1 h => SetPerformanceState_frame c c1 S st h,
    fun CoreId f st c1 h => UpdateCoreFrequency_frame c c1 CoreId f st h, ?_, ?_⟩
  · intro Request st c1 r1 h
    unfold HandleIOCTL at h
    simp only [if_true, Option.some.injEq, Prod.mk.injEq] at h
    exact h.2.1.symm
  · intro Request st c1 r1 h
    unfold HandleIOCTL at h
    simp only [ioctl_codes.1, ioctl_codes.2.1, ioctl_codes.2.2.1, ioctl_codes.2.2.2] at h
    simp only [Nat.reduceEqDiff, if_false, if_true] at h
    obtain ⟨r, _, hr⟩ := Option.map_eq_some'.mp h
    rw [Prod.mk.injEq, Prod.mk.injEq] at hr
    exact hr.2.1.symm

/-- Witness of C16: `set_state(Performance)` and an update of core 3 on the freshly initialized
engine (12 cores) return and leave the identity and the table entry 12 as they were. -/
theorem non_reset_operations_frame_witness :
    ((SetPerformanceState_result freshContext STATE_PERFORMANCE).identity = freshContext.identity ∧
      (SetPerformanceState_result freshContext STATE_PERFORMANCE).Cores 12
        = freshContext.Cores 12) ∧
    ∃ c1, UpdateCoreFrequency freshContext 3 1000 = some (STATUS_SUCCESS, c1) ∧
      c1.identity = freshContext.identity ∧ c1.Cores 12 = freshContext.Cores 12 := by
  have hset := (non_reset_operations_frame freshContext).1 STATE_PERFORMANCE STATUS_SUCCESS _
    (SetPerformanceState_eq freshContext STATE_PERFORMANCE (by decide) (by decide) (by decide))
  have hupd : UpdateCoreFrequency freshContext 3 1000 = some (STATUS_SUCCESS,
      { freshContext with
        Cores := Function.update freshContext.Cores 3
          (UpdateCoreFrequency_record freshContext 1000 (freshContext.Cores 3)) }) := by
    rw [UpdateCoreFrequency_eq]
    rfl
  have hu := (non_reset_operations_frame freshContext).2.1 3 1000 STATUS_SUCCESS _ hupd
  exact ⟨⟨hset.1, hset.2 12 (by decide)⟩, _, hupd, hu.1, hu.2 12 (by decide)⟩

/-! ## Continue-on-error and the telemetry rule -/

/-- A successful `UpdateCoreFrequency` has passed both range checks and rewritten the record of
the core with `UpdateCoreFrequency_record`. -/
theorem UpdateCoreFrequency_success (c c1 : DRIVER_CONTEXT) (CoreId : Fin 256) (f : Nat)
    (h : UpdateCoreFrequency c CoreId f = some (STATUS_SUCCESS, c1)) :
    CoreId.val < c.CoreCount ∧ wrap32 (c.BaseFrequency * 4) / 10 ≤ f ∧ f ≤ c.MaxFrequency ∧
    c.MaxFrequency ≠ 0 ∧
    c1.Cores CoreId = UpdateCoreFrequency_record c f (c.Cores CoreId) := by
  rw [UpdateCoreFrequency_eq] at h
  by_cases hid : CoreId.val ≥ c.CoreCount
  · rw [if_pos hid, Option.some.injEq, Prod.mk.injEq] at h
    exact absurd h.1 (by decide)
  · rw [if_neg hid] at h
    by_cases hr : f < wrap32 (c.BaseFrequency * 4) / 10 ∨ f > c.MaxFrequency
    · rw [if_pos hr, Option.some.injEq, Prod.mk.injEq] at h
      exact absurd h.1 (by decide)
    · rw [if_neg hr] at h
      unfold UpdateCoreFrequency_commit at h
      by_cases hmax : c.MaxFrequency = 0
      · rw [if_pos hmax] at h
        exact absurd h (by simp)
      · rw [if_neg hmax, Option.some.injEq, Prod.mk.injEq] at h
        refine ⟨by omega, by omega, by omega, hmax, ?_⟩
        rw [← h.2]
        exact Function.update_same _ _ _

/-- Outside the identities initialization produces a per-core update can fail: with base 4000 and
maximum 4500 (a pair no detection yields) the update of core 0 to the `Performance` target
4800 returns `STATUS_INVALID_PARAMETER`, and the assignments that follow it in
`SetPerformanceState` still record 4800 MHz and `Performance` for that core. -/
theorem SetPerformanceState_outside_detected_range :
    UpdateCoreFrequency narrowRangeContext 0 (targetFrequency narrowRangeContext STATE_PERFORMANCE)
      = some (STATUS_INVALID_PARAMETER, narrowRangeContext) ∧
    (narrowRangeContext.Cores 0).CurrentFrequency = 4000 ∧
    (narrowRangeContext.Cores 0).CurrentState = STATE_BALANCED ∧
    (SetPerformanceState narrowRangeContext STATE_PERFORMANCE).map
      (fun r => (r.1, (r.2.Cores 0).CurrentFrequency, (r.2.Cores 0).CurrentState))
      = some (STATUS_SUCCESS, 4800, STATE_PERFORMANCE) := by
  refine ⟨?_, rfl, rfl, ?_⟩
  · rw [UpdateCoreFrequency_eq]
    rfl
  · rw [SetPerformanceState_eq narrowRangeContext STATE_PERFORMANCE (by decide) (by decide)
      (by decide)]
    rfl

/-- C18: after a successful `UpdateCoreFrequency` of a core to the frequency `f`, for a previous
temperature `t` with `30 ≤ t ≤ 100` and a maximum frequency with `max*100` within 32 bits (as
for every maximum the detector produces), the new temperature is `min(t+5, 100)` if `f` is
above the base frequency, `max(t-2, 30)` if below and `t` if equal; `f*100` does not wrap
around and the new utilization is `min(100, f*100/max)` with integer division. -/
theorem telemetry_update_rule (c c1 : DRIVER_CONTEXT) (CoreId : Fin 256) (f : Nat)
    (h : UpdateCoreFrequency c CoreId f = some (STATUS_SUCCESS, c1))
    (ht : 30 ≤ (c.Cores CoreId).Temperature ∧ (c.Cores CoreId).Temperature ≤ 100)
    (hm : c.MaxFrequency * 100 < 4294967296) :
    (c1.Cores CoreId).Temperature =
      (if f > c.BaseFrequency then min ((c.Cores CoreId).Temperature + 5) 100
       else if f < c.BaseFrequency then max ((c.Cores CoreId).Temperature - 2) 30
       else (c.Cores CoreId).Temperature) ∧
    f * 100 < 4294967296 ∧
    (c1.Cores CoreId).Utilization = min 100 (f * 100 / c.MaxFrequency) := by
  obtain ⟨_, _, hhi, _, hrec⟩ := UpdateCoreFrequency_success c c1 CoreId f h
  have hf : f * 100 < 4294967296 := by omega
  rw [hrec]
  unfold UpdateCoreFrequency_record
  simp only [wrap32_of_lt _ hf]
  refine ⟨?_, hf, ?_⟩
  · split_ifs with h1 h2
    · simp only [cmin, wrap32]
      split_ifs <;> omega
    · simp only [cmax, wrap32]
      split_ifs <;> omega
    · rfl
  · simp only [cmin]
    split_ifs <;> omega

/-- Witness of C18: core 3 of the freshly initialized engine (40 degrees, base 800, maximum
1600) is set to 1000 MHz: 45 degrees and utilization 62. -/
theorem telemetry_update_rule_witness :
    ∃ c1, UpdateCoreFrequency freshContext 3 1000 = some (STATUS_SUCCESS, c1) ∧
      (c1.Cores 3).Temperature = 45 ∧ (c1.Cores 3).Utilization = 62 := by
  have hupd : UpdateCoreFrequency freshContext 3 1000 = some (STATUS_SUCCESS,
      { freshContext with
        Cores := Function.update freshContext.Cores 3
          (UpdateCoreFrequency_record freshContext 1000 (freshContext.Cores 3)) }) := by
    rw [UpdateCoreFrequency_eq]
    rfl
  have hrule := telemetry_update_rule freshContext _ 3 1000 hupd ⟨by decide, by decide⟩
    (by decide)
  exact ⟨_, hupd, hrule.1.trans (by decide), hrule.2.2.trans (by decide)⟩

/-! ## Fallback policy and bounds of the detected topology -/

theorem DetectCPUArchitecture_classify_fields (cpuid : CpuidRoutine) (regs : CPUID_REGISTERS)
    (c : DRIVER_CONTEXT) :
    (DetectCPUArchitecture_classify cpuid regs c).1.BaseFrequency = c.BaseFrequency ∧
    (DetectCPUArchitecture_classify cpuid regs c).1.MaxFrequency = c.MaxFrequency ∧
    (DetectCPUArchitecture_classify cpuid regs c).1.Cores = c.Cores ∧
    ((DetectCPUArchitecture_classify cpuid regs c).1.CoreCount = c.CoreCount ∨
      (DetectCPUArchitecture_classify cpuid regs c).1.CoreCount ≤ MAX_CPU_CORES) := by
  unfold DetectCPUArchitecture_classify
  simp only []
  split_ifs
  · refine ⟨rfl, rfl, rfl, Or.inr ?_⟩
    exact Nat.le_trans Nat.and_le_right (by decide)
  · exact ⟨rfl, rfl, rfl, Or.inl rfl⟩
  · refine ⟨rfl, rfl, rfl, Or.inr ?_⟩
    exact Nat.succ_le_succ Nat.and_le_right
  · exact ⟨rfl, rfl, rfl, Or.inl rfl⟩
  · exact ⟨rfl, rfl, rfl, Or.inl rfl⟩

theorem DetectCPUArchitecture_brandString_fields (cpuid : CpuidRoutine) (regs : CPUID_REGISTERS)
    (c : DRIVER_CONTEXT) :
    (DetectCPUArchitecture_brandString cpuid regs c).BaseFrequency = c.BaseFrequency ∧
    (DetectCPUArchitecture_brandString cpuid regs c).MaxFrequency = c.MaxFrequency ∧
    (DetectCPUArchitecture_brandString cpuid regs c).Cores = c.Cores ∧
    (DetectCPUArchitecture_brandString cpuid regs c).CoreCount = c.CoreCount := by
  unfold DetectCPUArchitecture_brandString
  split_ifs <;> exact ⟨rfl, rfl, rfl, rfl⟩

theorem DetectCPUArchitecture_frequency_fields (rdmsr : ReadMsrRoutine) (c : DRIVER_CONTEXT) :
    (DetectCPUArchitecture_frequency rdmsr c).Cores = c.Cores ∧
    (DetectCPUArchitecture_frequency rdmsr c).CoreCount = c.CoreCount ∧
    (((DetectCPUArchitecture_frequency rdmsr c).BaseFrequency = c.BaseFrequency ∧
        (DetectCPUArchitecture_frequency rdmsr c).MaxFrequency = c.MaxFrequency) ∨
      ((DetectCPUArchitecture_frequency rdmsr c).BaseFrequency ≤ 25500 ∧
        (DetectCPUArchitecture_frequency rdmsr c).MaxFrequency
          = 2 * (DetectCPUArchitecture_frequency rdmsr c).BaseFrequency)) := by
  unfold DetectCPUArchitecture_frequency
  simp only []
  split_ifs
  · refine ⟨rfl, rfl, Or.inr ?_⟩
    have hb : (rdmsr 0xCE (some 0)).2.getD 0 >>> 8 &&& 0xFF ≤ 255 := Nat.and_le_right
    have h1 : wrap32 (((rdmsr 0xCE (some 0)).2.getD 0 >>> 8 &&& 0xFF) * 100)
        = ((rdmsr 0xCE (some 0)).2.getD 0 >>> 8 &&& 0xFF) * 100 := wrap32_of_lt _ (by omega)
    have h2 : wrap32 (((rdmsr 0xCE (some 0)).2.getD 0 >>> 8 &&& 0xFF) * 100 * 2)
        = ((rdmsr 0xCE (some 0)).2.getD 0 >>> 8 &&& 0xFF) * 100 * 2 := wrap32_of_lt _ (by omega)
    simp only [h1, h2]
    omega
  · exact ⟨rfl, rfl, Or.inl ⟨rfl, rfl⟩⟩
  · exact ⟨rfl, rfl, Or.inl ⟨rfl, rfl⟩⟩

/-- The step "Default values": a zero core count becomes 4 cores / 8 threads, a zero base
frequency becomes 3000 / 4500, everything else is kept. -/
theorem DetectCPUArchitecture_defaults_fields (d : DRIVER_CONTEXT) :
    1 ≤ (DetectCPUArchitecture_defaults d).CoreCount ∧
    1 ≤ (DetectCPUArchitecture_defaults d).BaseFrequency ∧
    (d.CoreCount = 0 → (DetectCPUArchitecture_defaults d).CoreCount = 4 ∧
      (DetectCPUArchitecture_defaults d).ThreadCount = 8) ∧
    (d.CoreCount ≠ 0 → (DetectCPUArchitecture_defaults d).CoreCount = d.CoreCount ∧
      (DetectCPUArchitecture_defaults d).ThreadCount = d.ThreadCount) ∧
    (d.BaseFrequency = 0 → (DetectCPUArchitecture_defaults d).BaseFrequency = 3000 ∧
      (DetectCPUArchitecture_defaults d).MaxFrequency = 4500) ∧
    (d.BaseFrequency ≠ 0 → (DetectCPUArchitecture_defaults d).BaseFrequency = d.BaseFrequency ∧
      (DetectCPUArchitecture_defaults d).MaxFrequency = d.MaxFrequency) ∧
    (DetectCPUArchitecture_defaults d).Cores = d.Cores := by
  unfold DetectCPUArchitecture_defaults
  by_cases hc : d.CoreCount = 0 <;> by_cases hb : d.BaseFrequency = 0 <;>
    simp [hc, hb] <;> omega

theorem DetectCPUArchitectureWith_eq (cpuid : CpuidRoutine) (rdmsr : ReadMsrRoutine)
    (c : DRIVER_CONTEXT) (h0 : NT_SUCCESS (cpuid 0 0 (some ⟨0, 0, 0, 0⟩)).1 = true) :
    DetectCPUArchitectureWith cpuid rdmsr c = (STATUS_SUCCESS, DetectCPUArchitecture_defaults
      (DetectCPUArchitecture_detected cpuid rdmsr
        ((cpuid 0 0 (some ⟨0, 0, 0, 0⟩)).2.getD ⟨0, 0, 0, 0⟩) c)) := by
  unfold DetectCPUArchitectureWith
  simp [h0]

/-- C14: whatever the identification routine and the register read routine return (the
identification of function 0 on the detector's own array succeeding, as it does for every
non-null target), detection succeeds with `CoreCount ≥ 1` and base frequency `≥ 1`; when the
detected core count is zero the result is 4 cores / 8 threads, when the detected base
frequency is zero the result is base 3000 / maximum 4500, and non-zero detected values are
kept as detected. -/
theorem detection_fallback_policy (cpuid : CpuidRoutine) (rdmsr : ReadMsrRoutine)
    (Context : DRIVER_CONTEXT) (h0 : NT_SUCCESS (cpuid 0 0 (some ⟨0, 0, 0, 0⟩)).1 = true) :
    ∃ d c1, d = DetectCPUArchitecture_detected cpuid rdmsr
        ((cpuid 0 0 (some ⟨0, 0, 0, 0⟩)).2.getD ⟨0, 0, 0, 0⟩) Context ∧
      DetectCPUArchitectureWith cpuid rdmsr Context = (STATUS_SUCCESS, c1) ∧
      1 ≤ c1.CoreCount ∧ 1 ≤ c1.BaseFrequency ∧
      (d.CoreCount = 0 → c1.CoreCount = 4 ∧ c1.ThreadCount = 8) ∧
      (d.CoreCount ≠ 0 → c1.CoreCount = d.CoreCount ∧ c1.ThreadCount = d.ThreadCount) ∧
      (d.BaseFrequency = 0 → c1.BaseFrequency = 3000 ∧ c1.MaxFrequency = 4500) ∧
      (d.BaseFrequency ≠ 0 →
        c1.BaseFrequency = d.BaseFrequency ∧ c1.MaxFrequency = d.MaxFrequency) := by
  obtain ⟨h1, h2, h3, h4, h5, h6, _⟩ := DetectCPUArchitecture_defaults_fields
    (DetectCPUArchitecture_detected cpuid rdmsr
      ((cpuid 0 0 (some ⟨0, 0, 0, 0⟩)).2.getD ⟨0, 0, 0, 0⟩) Context)
  exact ⟨_, _, rfl, DetectCPUArchitectureWith_eq cpuid rdmsr Context h0, h1, h2, h3, h4, h5, h6⟩

/-- Witness of C14: a processor that identifies as nothing and supports no register read is
detected as 4 cores / 8 threads at 3000 / 4500 MHz; the simulated backend, which reports 12
cores and base 800, keeps 12 cores, 24 threads, 800 / 1600 MHz. -/
theorem detection_fallback_policy_witness :
    (∃ c1, DetectCPUArchitectureWith silentCpuid failingReadMsr zeroContext = (STATUS_SUCCESS, c1) ∧
      c1.CoreCount = 4 ∧ c1.ThreadCount = 8 ∧ c1.BaseFrequency = 3000 ∧
      c1.MaxFrequency = 4500) ∧
    (∃ c1, DetectCPUArchitecture zeroContext = (STATUS_SUCCESS, c1) ∧
      c1.CoreCount = 12 ∧ c1.ThreadCount = 24 ∧ c1.BaseFrequency = 800 ∧
      c1.MaxFrequency = 1600) := by
  constructor
  · obtain ⟨d, c1, hd, h, _, _, hc0, _, hb0, _⟩ :=
      detection_fallback_policy silentCpuid failingReadMsr zeroContext rfl
    have hdc : d.CoreCount = 0 := by rw [hd]; rfl
    have hdb : d.BaseFrequency = 0 := by rw [hd]; rfl
    exact ⟨c1, h, (hc0 hdc).1, (hc0 hdc).2, (hb0 hdb).1, (hb0 hdb).2⟩
  · obtain ⟨d, c1, hd, h, _, _, _, hc, _, hb⟩ :=
      detection_fallback_policy GetCPUID ReadMSR zeroContext rfl
    have hdc : d.CoreCount = 12 ∧ d.ThreadCount = 24 := by rw [hd]; exact ⟨rfl, rfl⟩
    have hdb : d.BaseFrequency = 800 ∧ d.MaxFrequency = 1600 := by rw [hd]; exact ⟨rfl, rfl⟩
    have hc' := hc (by rw [hdc.1]; decide)
    have hb' := hb (by rw [hdb.1]; decide)
    rw [DetectCPUArchitecture_eq_With]
    exact ⟨c1, h, hc'.1.trans hdc.1, hc'.2.trans hdc.2, hb'.1.trans hdb.1, hb'.2.trans hdb.2⟩

/-- Detection on the zeroed context, whatever the backend returns: between 1 and 256 cores, a
base frequency between 1 and 25500 and a maximum of twice the base or the default pair
3000 / 4500; the core table is not touched. -/
theorem DetectCPUArchitectureWith_bounds (cpuid : CpuidRoutine) (rdmsr : ReadMsrRoutine)
    (h0 : NT_SUCCESS (cpuid 0 0 (some ⟨0, 0, 0, 0⟩)).1 = true) :
    ∃ d, DetectCPUArchitectureWith cpuid rdmsr zeroContext = (STATUS_SUCCESS, d) ∧
      1 ≤ d.CoreCount ∧ d.CoreCount ≤ MAX_CPU_CORES ∧
      1 ≤ d.BaseFrequency ∧ d.BaseFrequency ≤ 25500 ∧
      (d.MaxFrequency = 2 * d.BaseFrequency ∨
        (d.BaseFrequency = 3000 ∧ d.MaxFrequency = 4500)) ∧
      d.Cores = zeroContext.Cores := by
  refine ⟨_, DetectCPUArchitectureWith_eq cpuid rdmsr zeroContext h0, ?_⟩
  generalize (cpuid 0 0 (some ⟨0, 0, 0, 0⟩)).2.getD ⟨0, 0, 0, 0⟩ = regs
  unfold DetectCPUArchitecture_detected
  simp only []
  generalize hc' : ({ zeroContext with
    VendorString := storeBytes zeroContext.VendorString 0
      (RtlStringCbCopyA 13 (DetectCPUArchitecture_vendor regs)) } : DRIVER_CONTEXT) = c'
  have hc0 : c'.BaseFrequency = 0 ∧ c'.MaxFrequency = 0 ∧ c'.Cores = zeroContext.Cores ∧
      c'.CoreCount = 0 := by
    rw [← hc']; exact ⟨rfl, rfl, rfl, rfl⟩
  obtain ⟨a1, a2, a3, a4⟩ := DetectCPUArchitecture_classify_fields cpuid regs c'
  generalize DetectCPUArchitecture_classify cpuid regs c' = s at a1 a2 a3 a4 ⊢
  obtain ⟨b1, b2, b3, b4⟩ := DetectCPUArchitecture_brandString_fields cpuid s.2 s.1
  generalize DetectCPUArchitecture_brandString cpuid s.2 s.1 = cb at b1 b2 b3 b4 ⊢
  obtain ⟨f1, f2, f3⟩ := DetectCPUArchitecture_frequency_fields rdmsr cb
  generalize DetectCPUArchitecture_frequency rdmsr cb = d at f1 f2 f3 ⊢
  obtain ⟨d1, d2, d3, d4, d5, d6, d7⟩ := DetectCPUArchitecture_defaults_fields d
  generalize DetectCPUArchitecture_defaults d = r at d1 d2 d3 d4 d5 d6 d7 ⊢
  have hcount : d.CoreCount ≤ 256 := by
    rw [f2, b4]
    rcases a4 with h | h
    · rw [h, hc0.2.2.2]; decide
    · exact h
  have hfreq : d.BaseFrequency ≤ 25500 ∧ d.MaxFrequency = 2 * d.BaseFrequency := by
    rcases f3 with ⟨h1, h2⟩ | h
    · rw [h1, h2, b1, b2, a1, a2, hc0.1, hc0.2.1]
      decide
    · exact h
  refine ⟨d1, ?_, d2, ?_, ?_, ?_⟩
  · by_cases hz : d.CoreCount = 0
    · rw [(d3 hz).1]; decide
    · rw [(d4 hz).1]; exact hcount
  · by_cases hz : d.BaseFrequency = 0
    · rw [(d5 hz).1]; decide
    · rw [(d6 hz).1]; exact hfreq.1
  · by_cases hz : d.BaseFrequency = 0
    · exact Or.inr (d5 hz)
    · rw [(d6 hz).1, (d6 hz).2]; exact Or.inl hfreq.2
  · rw [d7, f1, b3, a3, hc0.2.2.1]

/-- The closed form of initialization, whatever the backend returns: the detected identity, the
default limits and 256 records with the defaults. -/
theorem InitializeDriverContextWith_eq (cpuid : CpuidRoutine) (rdmsr : ReadMsrRoutine)
    (x d : DRIVER_CONTEXT)
    (hdet : DetectCPUArchitectureWith cpuid rdmsr zeroContext = (STATUS_SUCCESS, d))
    (hn : d.CoreCount ≤ MAX_CPU_CORES) (hcores : d.Cores = zeroContext.Cores) :
    InitializeDriverContextWith cpuid rdmsr x = some (STATUS_SUCCESS, { d with
      GlobalState := STATE_BALANCED
      GlobalThermalLimit := 85
      GlobalPowerLimit := 65
      TurboBoostEnabled := true
      Cores := fun j =>
        ⟨j, 0, d.BaseFrequency, d.BaseFrequency, d.MaxFrequency, 40, 10, STATE_BALANCED⟩ }) := by
  unfold InitializeDriverContextWith
  simp only [hdet, NT_SUCCESS, Bool.not_true, Bool.false_eq_true, if_false]
  unfold InitializeCoreManagement
  rw [forLoop_modifyCore d (fun i core =>
      { core with
        CoreId := toUCHAR i
        BaseFrequency := d.BaseFrequency
        MaxFrequency := d.MaxFrequency
        CurrentFrequency := d.BaseFrequency
        Temperature := 40
        Utilization := 10
        CurrentState := STATE_BALANCED }) _ d.CoreCount hn (fun i _ cores => rfl)]
  simp only [Option.map_some', Option.some_bind, NT_SUCCESS, Bool.not_true, Bool.false_eq_true,
    if_false]
  rw [forLoop_modifyCore _ (fun i core =>
      { core with
        CoreId := toUCHAR i
        CurrentState := STATE_BALANCED
        BaseFrequency := d.BaseFrequency
        MaxFrequency := d.MaxFrequency
        CurrentFrequency := d.BaseFrequency
        Temperature := 40
        Utilization := 10 }) _ MAX_CPU_CORES (Nat.le_refl _) (fun i _ cores => rfl)]
  simp only [Option.some_bind]
  rw [forLoop_modifyCore _ (fun i core => { core with CoreId := toUCHAR i }) _ _ hn
    (fun i _ cores => rfl)]
  simp only [Option.map_some']
  congr 3
  funext j
  simp [toUCHAR_val, j.isLt]
  rw [hcores]
  split <;> rfl

/-! ## No failing per-core update, no undefined behaviour -/

theorem targetFrequency_cases (c : DRIVER_CONTEXT) (S : Int) :
    targetFrequency c S = wrap32 (c.BaseFrequency * 6) / 10 ∨
    targetFrequency c S = c.BaseFrequency ∨
    targetFrequency c S = wrap32 (c.BaseFrequency * 12) / 10 ∨
    targetFrequency c S = c.MaxFrequency := by
  unfold targetFrequency
  split_ifs
  · exact Or.inl rfl
  · exact Or.inr (Or.inl rfl)
  · exact Or.inr (Or.inr (Or.inl rfl))
  · exact Or.inr (Or.inr (Or.inr rfl))
  · exact Or.inr (Or.inl rfl)

/-- C19: whatever the platform-info read returns, value or failure (and whatever the
identification returns), initialization succeeds with a base and a maximum frequency for which
`base*12` fits 32 bits, `base*4/10 ≤ base*6/10`, `base ≤ max` and `base*12/10 ≤ max`; hence in
every context with that identity, for each of the four valid states and every core index below
`CoreCount`, the per-core call `UpdateCoreFrequency(Context, (UCHAR)i, target)` that
`SetPerformanceState` makes returns success on the simulated backend. -/
theorem per_core_update_never_fails (cpuid : CpuidRoutine) (rdmsr : ReadMsrRoutine)
    (x : DRIVER_CONTEXT) (h0 : NT_SUCCESS (cpuid 0 0 (some ⟨0, 0, 0, 0⟩)).1 = true) :
    ∃ c0, InitializeDriverContextWith cpuid rdmsr x = some (STATUS_SUCCESS, c0) ∧
      c0.BaseFrequency * 12 < 4294967296 ∧
      c0.BaseFrequency * 4 / 10 ≤ c0.BaseFrequency * 6 / 10 ∧
      c0.BaseFrequency ≤ c0.MaxFrequency ∧
      c0.BaseFrequency * 12 / 10 ≤ c0.MaxFrequency ∧
      ∀ c : DRIVER_CONTEXT, c.identity = c0.identity →
        ∀ S, STATE_POWER_SAVE ≤ S ∧ S ≤ STATE_EXTREME → ∀ i, i < c.CoreCount →
          ∃ c1, UpdateCoreFrequency c (toUCHAR i) (targetFrequency c S)
            = some (STATUS_SUCCESS, c1) := by
  obtain ⟨d, hdet, hc1, hc2, hb1, hb2, hmx, hcores⟩ :=
    DetectCPUArchitectureWith_bounds cpuid rdmsr h0
  refine ⟨_, InitializeDriverContextWith_eq cpuid rdmsr x d hdet hc2 hcores, ?_⟩
  dsimp only
  refine ⟨by omega, by omega, by omega, by omega, ?_⟩
  intro c hid S hS i hi
  simp only [DRIVER_CONTEXT.identity, Prod.mk.injEq] at hid
  obtain ⟨_, _, _, hcc, _, hcb, hcm⟩ := hid
  have hi256 : i < 256 := by
    have : d.CoreCount ≤ 256 := hc2
    omega
  have h4 : wrap32 (c.BaseFrequency * 4) = c.BaseFrequency * 4 := wrap32_of_lt _ (by omega)
  have h6 : wrap32 (c.BaseFrequency * 6) = c.BaseFrequency * 6 := wrap32_of_lt _ (by omega)
  have h12 : wrap32 (c.BaseFrequency * 12) = c.BaseFrequency * 12 := wrap32_of_lt _ (by omega)
  have hr : ¬ (targetFrequency c S < wrap32 (c.BaseFrequency * 4) / 10 ∨
      targetFrequency c S > c.MaxFrequency) := by
    rw [h4]
    rcases targetFrequency_cases c S with h | h | h | h <;> rw [h] <;>
      (try simp only [h6, h12]) <;> omega
  have hmax : c.MaxFrequency ≠ 0 := by omega
  have hge : ¬ (toUCHAR i).val ≥ c.CoreCount := by
    rw [toUCHAR_of_lt i hi256]
    exact Nat.not_le_of_lt hi
  rw [UpdateCoreFrequency_eq, if_neg hge, if_neg hr, UpdateCoreFrequency_commit, if_neg hmax]
  exact ⟨_, rfl⟩

/-- Witness of C19: the simulated backend (base 800, maximum 1600), `Extreme`, core 11 of the
freshly initialized engine. -/
theorem per_core_update_never_fails_witness :
    ∃ c0 c1, InitializeDriverContextWith GetCPUID ReadMSR zeroContext
        = some (STATUS_SUCCESS, c0) ∧
      c0.BaseFrequency * 12 / 10 ≤ c0.MaxFrequency ∧
      UpdateCoreFrequency c0 (toUCHAR 11) (targetFrequency c0 STATE_EXTREME)
        = some (STATUS_SUCCESS, c1) := by
  obtain ⟨c0, hinit, _, _, _, h12, hall⟩ :=
    per_core_update_never_fails GetCPUID ReadMSR zeroContext rfl
  have hfresh : c0 = freshContext := by
    have h := InitializeDriverContext_eq zeroContext
    rw [InitializeDriverContext_eq_With, hinit, Option.some.injEq, Prod.mk.injEq] at h
    exact h.2
  obtain ⟨c1, h1⟩ := hall c0 rfl STATE_EXTREME (by decide) 11 (by rw [hfresh]; decide)
  exact ⟨c0, c1, hinit, h12, h1⟩

theorem SetPerformanceState_returns (c : DRIVER_CONTEXT) (S : Int)
    (hn : c.CoreCount ≤ MAX_CPU_CORES) (hmax : c.MaxFrequency ≠ 0) :
    ∃ r, SetPerformanceState c S = some r := by
  by_cases hS : S > STATE_EXTREME
  · exact ⟨_, SetPerformanceState_rejects c S hS⟩
  · exact ⟨_, SetPerformanceState_eq c S (not_lt.mp hS) hn hmax⟩

theorem UpdateCoreFrequency_returns (c : DRIVER_CONTEXT) (CoreId : Fin 256) (f : Nat)
    (hmax : c.MaxFrequency ≠ 0) : ∃ r, UpdateCoreFrequency c CoreId f = some r := by
  rw [UpdateCoreFrequency_eq, UpdateCoreFrequency_commit, if_neg hmax]
  split_ifs <;> exact ⟨_, rfl⟩

theorem OnDeviceControl_bounds (c : DRIVER_CONTEXT) (Request : WDFREQUEST) (code : Nat)
    (h1 : 1 ≤ c.CoreCount) (hn : c.CoreCount ≤ MAX_CPU_CORES) (hmax : c.MaxFrequency ≠ 0) :
    ∃ st c1 r1, OnDeviceControl c Request code = some (st, c1, r1) ∧
      1 ≤ c1.CoreCount ∧ c1.CoreCount ≤ MAX_CPU_CORES ∧ c1.MaxFrequency ≠ 0 := by
  obtain ⟨st, c2, r2, hh, hcase⟩ := HandleIOCTL_cases
    { c with TotalOperations := wrap64 (c.TotalOperations + 1) } Request code h1 hn hmax
  have hb : 1 ≤ c2.CoreCount ∧ c2.CoreCount ≤ MAX_CPU_CORES ∧ c2.MaxFrequency ≠ 0 := by
    rcases hcase with ⟨e, _⟩ | ⟨S, _, _, e, _⟩ | ⟨_, _, e⟩
    · rw [e]; exact ⟨h1, hn, hmax⟩
    · rw [e]; exact ⟨h1, hn, hmax⟩
    · rw [e]; exact ⟨by decide, by decide, by decide⟩
  unfold OnDeviceControl
  simp only []
  rw [hh, Option.map_some']
  cases hst : NT_SUCCESS st with
  | true => exact ⟨st, c2, r2, by simp [hst], hb⟩
  | false =>
    exact ⟨st, { c2 with FailedOperations := wrap64 (c2.FailedOperations + 1) }, r2,
      by simp [hst], hb⟩

/-- C20: for every identification result and every outcome of the register read,
initialization returns, without undefined behaviour, a context with `1 ≤ CoreCount ≤ 256` and
a non-zero maximum frequency; these bounds hold in every reachable state and are kept by every
request; under them every core index below `CoreCount` is inside the 256-entry table and is
its own 8-bit core id, and `SetPerformanceState`, `GetPerformanceData`, `UpdateCoreFrequency`
and the dispatcher return: no access outside the table and no division by zero. -/
theorem no_crash_path :
    (∀ (cpuid : CpuidRoutine) (rdmsr : ReadMsrRoutine) (x : DRIVER_CONTEXT),
      NT_SUCCESS (cpuid 0 0 (some ⟨0, 0, 0, 0⟩)).1 = true →
      ∃ c0, InitializeDriverContextWith cpuid rdmsr x = some (STATUS_SUCCESS, c0) ∧
        1 ≤ c0.CoreCount ∧ c0.CoreCount ≤ MAX_CPU_CORES ∧ c0.MaxFrequency ≠ 0) ∧
    (∀ c : DRIVER_CONTEXT, Reachable c →
      1 ≤ c.CoreCount ∧ c.CoreCount ≤ MAX_CPU_CORES ∧ c.MaxFrequency ≠ 0) ∧
    (∀ c : DRIVER_CONTEXT, 1 ≤ c.CoreCount → c.CoreCount ≤ MAX_CPU_CORES →
      c.MaxFrequency ≠ 0 →
      (∀ i, i < c.CoreCount → i < MAX_CPU_CORES ∧ (toUCHAR i).val = i) ∧
      (∀ S, ∃ r, SetPerformanceState c S = some r) ∧
      (∀ out len, ∃ r, GetPerformanceData c out len = some r) ∧
      (∀ CoreId f, ∃ r, UpdateCoreFrequency c CoreId f = some r) ∧
      (∀ Request code, ∃ st c1 r1, OnDeviceControl c Request code = some (st, c1, r1) ∧
        1 ≤ c1.CoreCount ∧ c1.CoreCount ≤ MAX_CPU_CORES ∧ c1.MaxFrequency ≠ 0)) := by
  refine ⟨?_, ?_, ?_⟩
  · intro cpuid rdmsr x h0
    obtain ⟨d, hdet, hc1, hc2, hb1, hb2, hmx, hcores⟩ :=
      DetectCPUArchitectureWith_bounds cpuid rdmsr h0
    refine ⟨_, InitializeDriverContextWith_eq cpuid rdmsr x d hdet hc2 hcores, hc1, hc2, ?_⟩
    dsimp only
    omega
  · intro c hr
    obtain ⟨hc, _, hm, _⟩ := Reachable_SimInvariant c hr
    rw [hc, hm]
    exact ⟨by decide, by decide, by decide⟩
  · intro c h1 hn hmax
    refine ⟨fun i hi => ?_, fun S => SetPerformanceState_returns c S hn hmax,
      fun out len => GetPerformanceData_returns c out len h1 hn,
      fun CoreId f => UpdateCoreFrequency_returns c CoreId f hmax,
      fun Request code => OnDeviceControl_bounds c Request code h1 hn hmax⟩
    have h256 : i < MAX_CPU_CORES := Nat.lt_of_lt_of_le hi hn
    exact ⟨h256, by rw [toUCHAR_of_lt i h256]⟩

/-- Witness of C20: initialization on the simulated backend, and a Get Performance Data request
with a 24-byte buffer on the freshly initialized engine. -/
theorem no_crash_path_witness :
    (∃ c0, InitializeDriverContextWith GetCPUID ReadMSR zeroContext = some (STATUS_SUCCESS, c0) ∧
      1 ≤ c0.CoreCount ∧ c0.CoreCount ≤ MAX_CPU_CORES ∧ c0.MaxFrequency ≠ 0) ∧
    (∃ st c1 r1, OnDeviceControl freshContext ⟨none, some (List.replicate 24 0)⟩
        IOCTL_MAHF_GET_PERFORMANCE_DATA = some (st, c1, r1) ∧
      1 ≤ c1.CoreCount ∧ c1.CoreCount ≤ MAX_CPU_CORES ∧ c1.MaxFrequency ≠ 0) :=
  ⟨no_crash_path.1 GetCPUID ReadMSR zeroContext rfl,
    (no_crash_path.2.2 freshContext (by decide) (by decide) (by decide)).2.2.2.2
      ⟨none, some (List.replicate 24 0)⟩ IOCTL_MAHF_GET_PERFORMANCE_DATA⟩

end Mahf
